import Mathlib

/-!
Verification development for the CopperHead 2-player snake game server
(`src/main.py`). The Python classes `Snake`, `Game`, `GameRoom` and
`RoomManager` are shallowly embedded as Lean structures and pure functions.
Randomness (`random.choice(available)`) is modelled by an explicit choice
function `pick : List Cell → Cell`; the contract of `random.choice` — that it
returns a member of a nonempty list — is the predicate `ValidPick`.
-/

namespace Copperhead

/-- Grid width, `GRID_WIDTH = 30` in the source. -/
def GRID_WIDTH : Int := 30

/-- Grid height, `GRID_HEIGHT = 20` in the source. -/
def GRID_HEIGHT : Int := 20

/-- A grid cell; Python uses `tuple[int, int]`, and coordinates can go
negative (running off the left/top edge), hence `Int`. -/
abbrev Cell : Type := Int × Int

/-- The four movement directions (Python uses the strings
"up"/"down"/"left"/"right"). -/
inductive Dir : Type
  | up
  | down
  | left
  | right
deriving DecidableEq

/-- The `opposites` dictionary of the source. -/
def opposite : Dir → Dir
  | .up => .down
  | .down => .up
  | .left => .right
  | .right => .left

/-- The `moves` dictionary of the source: displacement of one step. -/
def delta : Dir → Cell
  | .up => (0, -1)
  | .down => (0, 1)
  | .left => (-1, 0)
  | .right => (1, 0)

/-- Move a cell one step in a direction. -/
def stepCell (c : Cell) (d : Dir) : Cell :=
  (c.1 + (delta d).1, c.2 + (delta d).2)

/-- The `Snake` class of the source. -/
structure Snake : Type where
  player_id : Nat
  body : List Cell
  direction : Dir
  next_direction : Dir
  input_queue : List Dir
  alive : Bool
deriving DecidableEq

/-- `Snake.__init__`: body is the single start cell, both direction fields are
the start direction, empty queue, alive. -/
def Snake.init (pid : Nat) (start_pos : Cell) (d : Dir) : Snake :=
  ⟨pid, [start_pos], d, d, [], true⟩

/-- `Snake.head`: the first body cell. (Total model of `self.body[0]`; every
snake produced by the game has a nonempty body.) -/
def Snake.head (s : Snake) : Cell :=
  s.body.headD (0, 0)

/-- The direction a queued input is compared against:
`self.input_queue[-1] if self.input_queue else self.next_direction`. -/
def Snake.lastQueued (s : Snake) : Dir :=
  s.input_queue.getLast?.getD s.next_direction

/-- `Snake.queue_direction`: append unless the direction is the opposite of —
or equal to — the queue tail (or, when empty, the committed next direction);
cap the queue at 3 entries by dropping the oldest. -/
def Snake.queue_direction (s : Snake) (d : Dir) : Snake :=
  if opposite d ≠ s.lastQueued ∧ d ≠ s.lastQueued then
    let q := s.input_queue ++ [d]
    { s with input_queue := if 3 < q.length then q.drop 1 else q }
  else s

/-- `Snake.process_input`: pop one queued direction; commit it to
`next_direction` unless it is the opposite of the current direction. -/
def Snake.process_input (s : Snake) : Snake :=
  match s.input_queue with
  | [] => s
  | d :: rest =>
      if opposite d ≠ s.direction then
        { s with input_queue := rest, next_direction := d }
      else
        { s with input_queue := rest }

/-- `Snake.get_next_head`: peek (without consuming) at the queue head, discard
it if it is the opposite of the current direction, and step the head. -/
def Snake.get_next_head (s : Snake) : Cell :=
  let next_dir :=
    match s.input_queue with
    | [] => s.next_direction
    | d :: _ => if opposite d ≠ s.direction then d else s.next_direction
  stepCell s.head next_dir

/-- `Snake.move`: consume one input, commit the direction, prepend the new
head, and pop the tail unless growing. -/
def Snake.move (s : Snake) (grow : Bool) : Snake :=
  let s1 := s.process_input
  let s2 := { s1 with direction := s1.next_direction }
  let new_head := stepCell s2.head s2.direction
  let body1 := new_head :: s2.body
  { s2 with body := if grow then body1 else body1.dropLast }

/-- The `Game` class of the source. The Python dict `self.snakes = {1: …, 2: …}`
is represented by the two fields `snake1`, `snake2`; every loop
`for snake in self.snakes.values()` visits snake 1 first, then snake 2
(dict insertion order). -/
structure Game : Type where
  snake1 : Snake
  snake2 : Snake
  food : Option Cell
  running : Bool
  winner : Option Nat
  mode : String
deriving DecidableEq

/-- All grid cells in the order Python generates them
(`for x in range(W) for y in range(H)`). -/
def gridCells : List Cell :=
  (List.range 30).flatMap fun x => (List.range 20).map fun y => (Int.ofNat x, Int.ofNat y)

/-- Cells occupied by either snake's body (the `occupied` set of
`Game.spawn_food`; only membership queries are made, so a list is faithful). -/
def occupiedCells (g : Game) : List Cell :=
  g.snake1.body ++ g.snake2.body

/-- The contract of `random.choice`: it returns some member of any nonempty
list it is given. -/
def ValidPick (pick : List Cell → Cell) : Prop :=
  ∀ l : List Cell, l ≠ [] → pick l ∈ l

/-- `Game.spawn_food`: place food on a chosen free cell; if no cell is free,
the food field is left unchanged. -/
def Game.spawn_food (pick : List Cell → Cell) (g : Game) : Game :=
  let available := gridCells.filter fun c => !decide (c ∈ occupiedCells g)
  if available ≠ [] then { g with food := some (pick available) } else g

/-- `Game.reset` as called from `Game.__init__(mode)`: fresh snakes at
`(5, GRID_HEIGHT // 2)` facing right and `(GRID_WIDTH - 6, GRID_HEIGHT // 2)`
facing left, no winner, not running, then one food spawn. -/
def Game.resetState (pick : List Cell → Cell) (mode : String) : Game :=
  Game.spawn_food pick
    { snake1 := Snake.init 1 (5, 10) .right
      snake2 := Snake.init 2 (24, 10) .left
      food := none
      running := false
      winner := none
      mode := mode }

/-- `Game()`: the default constructor used everywhere in the room code
(mode defaults to "two_player"). -/
def Game.init (pick : List Cell → Cell) : Game :=
  Game.resetState pick "two_player"

/-- First iteration of the move loop in `Game.update`: snake 1 (if alive)
peeks its next head, grows iff that head equals the current food, moves, and
on growth the food is respawned immediately. -/
def Game.phase1 (pick : List Cell → Cell) (g : Game) : Game :=
  if g.snake1.alive then
    let next_head := g.snake1.get_next_head
    let grow : Bool :=
      match g.food with
      | some f => decide (next_head = f)
      | none => false
    let g1 := { g with snake1 := g.snake1.move grow }
    if grow then g1.spawn_food pick else g1
  else g

/-- Second iteration of the move loop in `Game.update`: the same for snake 2,
seeing the food as it stands after snake 1's iteration. -/
def Game.phase2 (pick : List Cell → Cell) (g : Game) : Game :=
  if g.snake2.alive then
    let next_head := g.snake2.get_next_head
    let grow : Bool :=
      match g.food with
      | some f => decide (next_head = f)
      | none => false
    let g1 := { g with snake2 := g.snake2.move grow }
    if grow then g1.spawn_food pick else g1
  else g

/-- One iteration of the collision loop of `Game.update`: a living snake dies
if its head is off-grid, or in its own body minus the head, or anywhere in the
other snake's body. -/
def collideCheck (s other : Snake) : Snake :=
  if s.alive then
    let dead : Bool :=
      (decide (s.head.1 < 0) || decide (GRID_WIDTH ≤ s.head.1) ||
       decide (s.head.2 < 0) || decide (GRID_HEIGHT ≤ s.head.2)) ||
      decide (s.head ∈ s.body.tail) ||
      decide (s.head ∈ other.body)
    { s with alive := !dead }
  else s

/-- The collision loop of `Game.update`, snake 1 first then snake 2. -/
def Game.collisions (g : Game) : Game :=
  let s1 := collideCheck g.snake1 g.snake2
  let s2 := collideCheck g.snake2 s1
  { g with snake1 := s1, snake2 := s2 }

/-- The game-over check at the end of `Game.update`: with at most one snake
alive the game stops; the winner is the sole survivor, or absent on a draw. -/
def Game.endCheck (g : Game) : Game :=
  let aliveCount := (if g.snake1.alive then 1 else 0) + (if g.snake2.alive then 1 else 0)
  if aliveCount ≤ 1 then
    { g with running := false
             winner :=
               if g.snake1.alive then some 1
               else if g.snake2.alive then some 2
               else none }
  else g

/-- `Game.update`: a no-op unless running; otherwise both move iterations (in
dict order), then the collision loop, then the game-over check. `p1` and `p2`
are the `random.choice` outcomes for the (up to two) food respawns of the
tick. -/
def Game.update (p1 p2 : List Cell → Cell) (g : Game) : Game :=
  if g.running then ((g.phase1 p1).phase2 p2).collisions.endCheck else g

/-- The `move` action of `GameRoom.handle_message`, relayed to the slot's
snake (`self.game.snakes[player_id].queue_direction(direction)`). -/
def Game.queueDir (slot : Nat) (d : Dir) (g : Game) : Game :=
  if slot = 1 then { g with snake1 := g.snake1.queue_direction d }
  else if slot = 2 then { g with snake2 := g.snake2.queue_direction d }
  else g

/-- The food invariant asserted by the spec: food, when present, lies in
neither competitor's body. -/
def foodInv (g : Game) : Prop :=
  ∀ c : Cell, g.food = some c → c ∉ g.snake1.body ∧ c ∉ g.snake2.body

/-- Combined length of the two bodies. -/
def totalBodyLen (g : Game) : Nat :=
  g.snake1.body.length + g.snake2.body.length

/-- Game states reachable between ticks: a freshly created `Game()` (as built
at room reset), the same with `running` set as `start_game` does, any number
of relayed `move` inputs while running, and completed `update` ticks whose
random food choices obey the `random.choice` contract. -/
inductive Reachable : Game → Prop
  | fresh : ∀ pick, ValidPick pick → Reachable (Game.init pick)
  | started : ∀ pick, ValidPick pick → Reachable { Game.init pick with running := true }
  | queue : ∀ g slot d, g.running = true → Reachable g → Reachable (g.queueDir slot d)
  | tick : ∀ g p1 p2, ValidPick p1 → ValidPick p2 → Reachable g → Reachable (g.update p1 p2)

/-- Reachability restricted to traces in which every tick starts from a state
with combined body length at most 597, so that every food respawn inside the
tick finds at least one free grid cell. -/
inductive ReachableB : Game → Prop
  | fresh : ∀ pick, ValidPick pick → ReachableB (Game.init pick)
  | started : ∀ pick, ValidPick pick → ReachableB { Game.init pick with running := true }
  | queue : ∀ g slot d, g.running = true → ReachableB g → ReachableB (g.queueDir slot d)
  | tick : ∀ g p1 p2, ValidPick p1 → ValidPick p2 → totalBodyLen g ≤ 597 →
      ReachableB g → ReachableB (g.update p1 p2)

/-- A `random.choice` model that returns `c` whenever `c` is available and
otherwise the first available cell. -/
def pickTarget (c : Cell) : List Cell → Cell :=
  fun l => if c ∈ l then c else l.headD (0, 0)

/-- A `random.choice` model that always returns the first available cell. -/
def pickHead : List Cell → Cell :=
  fun l => l.headD (0, 0)

/-- An interaction with one snake between ticks: either a queued direction or
one committed move. -/
inductive SnakeOp : Type
  | queue (d : Dir)
  | tick (grow : Bool)
deriving DecidableEq

/-- Apply one snake interaction. -/
def applySnakeOp (s : Snake) (op : SnakeOp) : Snake :=
  match op with
  | .queue d => s.queue_direction d
  | .tick grow => s.move grow

/-- Apply a sequence of snake interactions. -/
def applySnakeOps (s : Snake) (ops : List SnakeOp) : Snake :=
  ops.foldl applySnakeOp s

/-- The queue update performed by `queue_direction` when a direction is
accepted: append, dropping the oldest entry if the cap of 3 is exceeded. -/
def capAppend (q : List Dir) (d : Dir) : List Dir :=
  let q1 := q ++ [d]
  if 3 < q1.length then q1.drop 1 else q1

/-- The `GameRoom` class of the source (transport-free model): the
`connections` dict is a slot-to-handle association list, `observers` a list of
handles, `ready` a set of slots, `game_task` and `bot_process` optional
handles, `wins` and `names` per-slot fields. -/
structure GameRoom : Type where
  room_id : Nat
  game : Game
  connections : List (Nat × Nat)
  observers : List Nat
  ready : List Nat
  game_task : Option Nat
  pending_mode : String
  bot_process : Option Nat
  wins1 : Nat
  wins2 : Nat
  names1 : String
  names2 : String
deriving DecidableEq

/-- `GameRoom.get_available_slot`: slot 1 if free, else slot 2 if free. -/
def GameRoom.get_available_slot (r : GameRoom) : Option Nat :=
  if 1 ∉ r.connections.map Prod.fst then some 1
  else if 2 ∉ r.connections.map Prod.fst then some 2
  else none

/-- `GameRoom.is_waiting_for_player`: exactly one connection and no running
game. -/
def GameRoom.is_waiting_for_player (r : GameRoom) : Bool :=
  decide (r.connections.length = 1) && !r.game.running

/-- `GameRoom.disconnect_player`: drop the slot's connection, discard the slot
from the ready set, cancel the tick-loop task, terminate the bot process,
replace the Match with a fresh idle `Game()`, and reset pending mode, win
counters and display names. -/
def GameRoom.disconnect_player (pick : List Cell → Cell) (pid : Nat) (r : GameRoom) : GameRoom :=
  { r with
    connections := r.connections.filter fun p => p.1 ≠ pid
    ready := r.ready.filter fun q => q ≠ pid
    game_task := none
    bot_process := none
    game := Game.init pick
    pending_mode := "two_player"
    wins1 := 0
    wins2 := 0
    names1 := "Player 1"
    names2 := "Player 2" }

/-- The one-time `start` notification broadcast by `GameRoom.start_game`. -/
structure StartMsg : Type where
  mode : String
  room_id : Nat
deriving DecidableEq

/-- `GameRoom.start_game`: install a fresh `Game(mode="two_player")`, set it
running, start the tick-loop task, and broadcast a `start` message carrying
the room's pending mode. -/
def GameRoom.start_game (pick : List Cell → Cell) (r : GameRoom) : GameRoom × StartMsg :=
  ({ r with game := { Game.init pick with running := true }, game_task := some 1 },
   ⟨r.pending_mode, r.room_id⟩)

/-- The dictionary produced by `Snake.to_dict`. -/
structure SnakeDict : Type where
  player_id : Nat
  body : List Cell
  direction : Dir
  alive : Bool
deriving DecidableEq

/-- `Snake.to_dict`. -/
def Snake.to_dict (s : Snake) : SnakeDict :=
  ⟨s.player_id, s.body, s.direction, s.alive⟩

/-- The dictionary produced by `Game.to_dict` (the per-tick state snapshot). -/
structure GameSnapshot : Type where
  mode : String
  grid : Int × Int
  snake1 : SnakeDict
  snake2 : SnakeDict
  food : Option Cell
  running : Bool
  winner : Option Nat
deriving DecidableEq

/-- `Game.to_dict`. -/
def Game.to_dict (g : Game) : GameSnapshot :=
  ⟨g.mode, (GRID_WIDTH, GRID_HEIGHT), g.snake1.to_dict, g.snake2.to_dict,
   g.food, g.running, g.winner⟩

/-! ### Matchmaking model (`RoomManager.find_or_create_room` + attach)

For claim C8 the registry is modelled with explicit object identity: every
`GameRoom` instantiation gets a fresh serial number, `roomIds` is the
`self.rooms` dict (insertion-ordered id-to-serial map, assignment to an
existing id keeps its position), and `store` maps serials to room objects (an
object replaced in the dict survives in the store, as the Python object
does). Only the fields that matchmaking inspects are modelled: the set of
connected slots and the running flag. A joiner's `find` step is the atomic
lock-protected find-or-create decision; its `attach` step is the later
`connect_player` connection assignment, which runs outside the lock. -/

/-- A room object as seen by matchmaking. -/
structure MRoom : Type where
  conns : List Nat
  running : Bool
deriving DecidableEq

/-- The registry state. -/
structure MState : Type where
  roomIds : List (Nat × Nat)
  store : List (Nat × MRoom)
  nextSerial : Nat
  created : Nat
deriving DecidableEq

/-- A just-instantiated `GameRoom`: no connections, game not running. -/
def emptyMRoom : MRoom := ⟨[], false⟩

/-- Dereference a serial in the store. -/
def mroomOf (st : MState) (ser : Nat) : MRoom :=
  (st.store.lookup ser).getD emptyMRoom

/-- `GameRoom.is_waiting_for_player` on the matchmaking view. -/
def MRoom.isWaiting (m : MRoom) : Bool :=
  decide (m.conns.length = 1) && !m.running

/-- `GameRoom.is_empty` on the matchmaking view. -/
def MRoom.isEmptyRoom (m : MRoom) : Bool :=
  decide (m.conns.length = 0)

/-- `GameRoom.get_available_slot` on the matchmaking view. -/
def MRoom.availSlot (m : MRoom) : Option Nat :=
  if 1 ∉ m.conns then some 1 else if 2 ∉ m.conns then some 2 else none

/-- The waiting-room scan of `find_or_create_room`
(`player_id = room.get_available_slot() or 2`). -/
def findWaiting (st : MState) : Option (Nat × Nat) :=
  match st.roomIds.find? (fun p => (mroomOf st p.2).isWaiting) with
  | some p => some (p.2, ((mroomOf st p.2).availSlot).getD 2)
  | none => none

/-- `room_id not in self.rooms or self.rooms[room_id].is_empty()`. -/
def idFree (st : MState) (rid : Nat) : Bool :=
  match st.roomIds.lookup rid with
  | none => true
  | some ser => (mroomOf st ser).isEmptyRoom

/-- Python dict assignment `self.rooms[room_id] = room`: an existing key keeps
its position, a new key is appended. -/
def setRoomId (l : List (Nat × Nat)) (rid ser : Nat) : List (Nat × Nat) :=
  if l.any (fun p => p.1 == rid) then l.map (fun p => if p.1 = rid then (rid, ser) else p)
  else l ++ [(rid, ser)]

/-- `RoomManager.find_or_create_room` (the body under the matchmaking lock):
return a waiting room with its free slot, else instantiate a room at the
lowest unused-or-empty id among 1..10, else fail. Returns the assignment
(serial, slot) and the new registry state. -/
def find_or_create_room (st : MState) : Option (Nat × Nat) × MState :=
  match findWaiting st with
  | some a => (some a, st)
  | none =>
    match (List.range' 1 10).find? (fun rid => idFree st rid) with
    | some rid =>
      (some (st.nextSerial, 1),
       { roomIds := setRoomId st.roomIds rid st.nextSerial
         store := (st.nextSerial, emptyMRoom) :: st.store
         nextSerial := st.nextSerial + 1
         created := st.created + 1 })
    | none => (none, st)

/-- `connect_player`'s `self.connections[player_id] = websocket` on the
assigned room object. -/
def attachConn (ser slot : Nat) (st : MState) : MState :=
  { st with store := st.store.map fun p =>
      if p.1 = ser then
        (p.1, { p.2 with conns := if slot ∈ p.2.conns then p.2.conns else p.2.conns ++ [slot] })
      else p }

/-- One scheduler event of a joiner: its find-or-create decision or its later
attach. -/
inductive JEv : Type
  | find (k : Nat)
  | attach (k : Nat)
deriving DecidableEq

/-- The caller performing an event. -/
def callerOf : JEv → Nat
  | .find k => k
  | .attach k => k

/-- Caller-indexed assignment log. -/
abbrev Assignments := List (Nat × (Nat × Nat))

/-- Execute one scheduler event (cooperative single-threaded interleaving:
each event is atomic). -/
def execEv (r : MState × Assignments) (e : JEv) : MState × Assignments :=
  match e with
  | .find k =>
    let res := find_or_create_room r.1
    match res.1 with
    | some a => (res.2, r.2 ++ [(k, a)])
    | none => (res.2, r.2)
  | .attach k =>
    match r.2.lookup k with
    | some a => (attachConn a.1 a.2 r.1, r.2)
    | none => r

/-- The registry before any joiner arrives: no rooms pre-exist. -/
def initMState : MState := ⟨[], [], 0, 0⟩

/-- Run a schedule of events from the empty registry. -/
def runSched (sched : List JEv) : MState × Assignments :=
  sched.foldl execEv (initMState, [])

/-- A well-formed schedule for `N` joiners: each joiner finds once, attaches
once, and finds before attaching; no other callers appear. -/
def WFSched (sched : List JEv) (N : Nat) : Prop :=
  (∀ k, k < N →
    sched.count (JEv.find k) = 1 ∧ sched.count (JEv.attach k) = 1 ∧
    sched.findIdx (fun e => e == JEv.find k) < sched.findIdx (fun e => e == JEv.attach k)) ∧
  (∀ e ∈ sched, callerOf e < N)

instance (sched : List JEv) (N : Nat) : Decidable (WFSched sched N) :=
  inferInstanceAs (Decidable ((∀ k, k < N →
    sched.count (JEv.find k) = 1 ∧ sched.count (JEv.attach k) = 1 ∧
    sched.findIdx (fun e => e == JEv.find k) < sched.findIdx (fun e => e == JEv.attach k)) ∧
    (∀ e ∈ sched, callerOf e < N)))

/-- The outcome claimed for `N` concurrent joiners: no two callers share a
(room object, slot) assignment, and no more rooms are instantiated than
half the joiners, rounded up. -/
def goodOutcome (N : Nat) (r : MState × Assignments) : Prop :=
  List.Pairwise (fun a b => a.2 ≠ b.2) r.2 ∧ r.1.created ≤ (N + 1) / 2

instance (N : Nat) (r : MState × Assignments) : Decidable (goodOutcome N r) :=
  inferInstanceAs (Decidable
    (List.Pairwise (fun a b : Nat × (Nat × Nat) => a.2 ≠ b.2) r.2 ∧
      r.1.created ≤ (N + 1) / 2))

/-- The fully sequential schedule: each joiner's attach completes before the
next joiner's find begins. -/
def seqSched (N : Nat) : List JEv :=
  (List.range N).flatMap fun k => [JEv.find k, JEv.attach k]

/-- Number of rooms after `k` sequential joins. -/
def seqRoomCount (k : Nat) : Nat := min ((k + 1) / 2) 10

/-- Room object with serial `i` after `k` sequential joins. -/
def seqRoom (k i : Nat) : MRoom :=
  if 2 * i + 2 ≤ min k 20 then ⟨[1, 2], false⟩ else ⟨[1], false⟩

/-- The id-to-serial map when `m` rooms exist: ids 1..m map to serials
0..m-1 in creation order. -/
def seqRoomIds (m : Nat) : List (Nat × Nat) :=
  (List.range m).map fun i => (i + 1, i)

/-- The store after `k` sequential joins (newest object first). -/
def seqStore (k : Nat) : List (Nat × MRoom) :=
  ((List.range (seqRoomCount k)).reverse).map fun i => (i, seqRoom k i)

/-- The registry state after `k` sequential joins. -/
def seqStateK (k : Nat) : MState :=
  ⟨seqRoomIds (seqRoomCount k), seqStore k, seqRoomCount k, seqRoomCount k⟩

/-- The assignment log after `k` sequential joins: joiner `j` got room serial
`j / 2`, slot `j % 2 + 1` (joiners beyond capacity got nothing). -/
def seqAssigned (k : Nat) : Assignments :=
  (List.range (min k 20)).map fun j => (j, (j / 2, j % 2 + 1))


/-! ### A concrete 299-tick trace filling the whole grid (used for claim C4)

`P1list` is a Hamiltonian path of the left half of the grid (x in 0..14)
starting at snake 1's spawn cell (5, 10); `P2list` is a Hamiltonian path of
the right half (x in 15..29) starting at snake 2's spawn cell (24, 10). In
the trace below both snakes eat on every tick (the food choices always fall
on the eater's next path cell), so after tick `t` each body is exactly the
first `t + 1` path cells, newest first. After tick 299 the two bodies cover
all 600 grid cells, the final respawn finds no free cell, and the food is
left on snake 2's head — inside its body — with both snakes alive and the
game still running.
-/

def P1list : List Cell := [(5, 10), (6, 10), (7, 10), (8, 10), (9, 10), (10, 10), (11, 10), (12, 10), (13, 10), (14, 10), (14, 11), (13, 11), (12, 11), (11, 11), (10, 11), (9, 11), (8, 11), (7, 11), (6, 11), (5, 11), (4, 11), (3, 11), (2, 11), (1, 11), (1, 12), (2, 12), (3, 12), (4, 12), (5, 12), (6, 12), (7, 12), (8, 12), (9, 12), (10, 12), (11, 12), (12, 12), (13, 12), (14, 12), (14, 13), (13, 13), (12, 13), (11, 13), (10, 13), (9, 13), (8, 13), (7, 13), (6, 13), (5, 13), (4, 13), (3, 13), (2, 13), (1, 13), (1, 14), (2, 14), (3, 14), (4, 14), (5, 14), (6, 14), (7, 14), (8, 14), (9, 14), (10, 14), (11, 14), (12, 14), (13, 14), (14, 14), (14, 15), (13, 15), (12, 15), (11, 15), (10, 15), (9, 15), (8, 15), (7, 15), (6, 15), (5, 15), (4, 15), (3, 15), (2, 15), (1, 15), (1, 16), (2, 16), (3, 16), (4, 16), (5, 16), (6, 16), (7, 16), (8, 16), (9, 16), (10, 16), (11, 16), (12, 16), (13, 16), (14, 16), (14, 17), (13, 17), (12, 17), (11, 17), (10, 17), (9, 17), (8, 17), (7, 17), (6, 17), (5, 17), (4, 17), (3, 17), (2, 17), (1, 17), (1, 18), (2, 18), (3, 18), (4, 18), (5, 18), (6, 18), (7, 18), (8, 18), (9, 18), (10, 18), (11, 18), (12, 18), (13, 18), (14, 18), (14, 19), (13, 19), (12, 19), (11, 19), (10, 19), (9, 19), (8, 19), (7, 19), (6, 19), (5, 19), (4, 19), (3, 19), (2, 19), (1, 19), (0, 19), (0, 18), (0, 17), (0, 16), (0, 15), (0, 14), (0, 13), (0, 12), (0, 11), (0, 10), (0, 9), (0, 8), (0, 7), (0, 6), (0, 5), (0, 4), (0, 3), (0, 2), (0, 1), (0, 0), (1, 0), (2, 0), (3, 0), (4, 0), (5, 0), (6, 0), (7, 0), (8, 0), (9, 0), (10, 0), (11, 0), (12, 0), (13, 0), (14, 0), (14, 1), (13, 1), (12, 1), (11, 1), (10, 1), (9, 1), (8, 1), (7, 1), (6, 1), (5, 1), (4, 1), (3, 1), (2, 1), (1, 1), (1, 2), (2, 2), (3, 2), (4, 2), (5, 2), (6, 2), (7, 2), (8, 2), (9, 2), (10, 2), (11, 2), (12, 2), (13, 2), (14, 2), (14, 3), (13, 3), (12, 3), (11, 3), (10, 3), (9, 3), (8, 3), (7, 3), (6, 3), (5, 3), (4, 3), (3, 3), (2, 3), (1, 3), (1, 4), (2, 4), (3, 4), (4, 4), (5, 4), (6, 4), (7, 4), (8, 4), (9, 4), (10, 4), (11, 4), (12, 4), (13, 4), (14, 4), (14, 5), (13, 5), (12, 5), (11, 5), (10, 5), (9, 5), (8, 5), (7, 5), (6, 5), (5, 5), (4, 5), (3, 5), (2, 5), (1, 5), (1, 6), (2, 6), (3, 6), (4, 6), (5, 6), (6, 6), (7, 6), (8, 6), (9, 6), (10, 6), (11, 6), (12, 6), (13, 6), (14, 6), (14, 7), (13, 7), (12, 7), (11, 7), (10, 7), (9, 7), (8, 7), (7, 7), (6, 7), (5, 7), (4, 7), (3, 7), (2, 7), (1, 7), (1, 8), (2, 8), (3, 8), (4, 8), (5, 8), (6, 8), (7, 8), (8, 8), (9, 8), (10, 8), (11, 8), (12, 8), (13, 8), (14, 8), (14, 9), (13, 9), (12, 9), (11, 9), (10, 9), (9, 9), (8, 9), (7, 9), (6, 9), (5, 9), (4, 9), (3, 9), (2, 9), (1, 9), (1, 10), (2, 10), (3, 10), (4, 10)]

def P2list : List Cell := [(24, 10), (23, 10), (22, 10), (21, 10), (20, 10), (19, 10), (18, 10), (17, 10), (16, 10), (16, 9), (17, 9), (18, 9), (19, 9), (20, 9), (21, 9), (22, 9), (23, 9), (24, 9), (25, 9), (26, 9), (27, 9), (28, 9), (29, 9), (29, 8), (28, 8), (27, 8), (26, 8), (25, 8), (24, 8), (23, 8), (22, 8), (21, 8), (20, 8), (19, 8), (18, 8), (17, 8), (16, 8), (16, 7), (17, 7), (18, 7), (19, 7), (20, 7), (21, 7), (22, 7), (23, 7), (24, 7), (25, 7), (26, 7), (27, 7), (28, 7), (29, 7), (29, 6), (28, 6), (27, 6), (26, 6), (25, 6), (24, 6), (23, 6), (22, 6), (21, 6), (20, 6), (19, 6), (18, 6), (17, 6), (16, 6), (16, 5), (17, 5), (18, 5), (19, 5), (20, 5), (21, 5), (22, 5), (23, 5), (24, 5), (25, 5), (26, 5), (27, 5), (28, 5), (29, 5), (29, 4), (28, 4), (27, 4), (26, 4), (25, 4), (24, 4), (23, 4), (22, 4), (21, 4), (20, 4), (19, 4), (18, 4), (17, 4), (16, 4), (16, 3), (17, 3), (18, 3), (19, 3), (20, 3), (21, 3), (22, 3), (23, 3), (24, 3), (25, 3), (26, 3), (27, 3), (28, 3), (29, 3), (29, 2), (28, 2), (27, 2), (26, 2), (25, 2), (24, 2), (23, 2), (22, 2), (21, 2), (20, 2), (19, 2), (18, 2), (17, 2), (16, 2), (16, 1), (17, 1), (18, 1), (19, 1), (20, 1), (21, 1), (22, 1), (23, 1), (24, 1), (25, 1), (26, 1), (27, 1), (28, 1), (29, 1), (29, 0), (28, 0), (27, 0), (26, 0), (25, 0), (24, 0), (23, 0), (22, 0), (21, 0), (20, 0), (19, 0), (18, 0), (17, 0), (16, 0), (15, 0), (15, 1), (15, 2), (15, 3), (15, 4), (15, 5), (15, 6), (15, 7), (15, 8), (15, 9), (15, 10), (15, 11), (15, 12), (15, 13), (15, 14), (15, 15), (15, 16), (15, 17), (15, 18), (15, 19), (16, 19), (17, 19), (18, 19), (19, 19), (20, 19), (21, 19), (22, 19), (23, 19), (24, 19), (25, 19), (26, 19), (27, 19), (28, 19), (29, 19), (29, 18), (28, 18), (27, 18), (26, 18), (25, 18), (24, 18), (23, 18), (22, 18), (21, 18), (20, 18), (19, 18), (18, 18), (17, 18), (16, 18), (16, 17), (17, 17), (18, 17), (19, 17), (20, 17), (21, 17), (22, 17), (23, 17), (24, 17), (25, 17), (26, 17), (27, 17), (28, 17), (29, 17), (29, 16), (28, 16), (27, 16), (26, 16), (25, 16), (24, 16), (23, 16), (22, 16), (21, 16), (20, 16), (19, 16), (18, 16), (17, 16), (16, 16), (16, 15), (17, 15), (18, 15), (19, 15), (20, 15), (21, 15), (22, 15), (23, 15), (24, 15), (25, 15), (26, 15), (27, 15), (28, 15), (29, 15), (29, 14), (28, 14), (27, 14), (26, 14), (25, 14), (24, 14), (23, 14), (22, 14), (21, 14), (20, 14), (19, 14), (18, 14), (17, 14), (16, 14), (16, 13), (17, 13), (18, 13), (19, 13), (20, 13), (21, 13), (22, 13), (23, 13), (24, 13), (25, 13), (26, 13), (27, 13), (28, 13), (29, 13), (29, 12), (28, 12), (27, 12), (26, 12), (25, 12), (24, 12), (23, 12), (22, 12), (21, 12), (20, 12), (19, 12), (18, 12), (17, 12), (16, 12), (16, 11), (17, 11), (18, 11), (19, 11), (20, 11), (21, 11), (22, 11), (23, 11), (24, 11), (25, 11), (26, 11), (27, 11), (28, 11), (29, 11), (29, 10), (28, 10), (27, 10), (26, 10), (25, 10)]

/-- Path cell lookup for snake 1. -/
def P1idx (t : Nat) : Cell := P1list.getD t (0, 0)

/-- Path cell lookup for snake 2. -/
def P2idx (t : Nat) : Cell := P2list.getD t (0, 0)

/-- The direction leading from `a` to an adjacent cell `b`. -/
def dirOf (a b : Cell) : Dir :=
  if b = stepCell a .up then .up
  else if b = stepCell a .down then .down
  else if b = stepCell a .left then .left
  else .right

/-- Snake 1's committed direction after tick `t` of the trace. -/
def dir1 (t : Nat) : Dir :=
  if t = 0 then .right else dirOf (P1idx (t - 1)) (P1idx t)

/-- Snake 2's committed direction after tick `t` of the trace. -/
def dir2 (t : Nat) : Dir :=
  if t = 0 then .left else dirOf (P2idx (t - 1)) (P2idx t)

/-- The game state after tick `t` of the trace (for `t = 0`, the started
fresh game with the first food already placed on snake 1's next path cell). -/
def GC (t : Nat) : Game :=
  { snake1 := ⟨1, (P1list.take (t + 1)).reverse, dir1 t, dir1 t, [], true⟩
    snake2 := ⟨2, (P2list.take (t + 1)).reverse, dir2 t, dir2 t, [], true⟩
    food := some (if t < 299 then P1idx (t + 1) else P2idx 299)
    running := true
    winner := none
    mode := "two_player" }

/-- One-pass adjacency check of a path: every step moves to the cell one
`dirOf`-step away. -/
def adjOK : List Cell → Bool
  | a :: b :: rest => (stepCell a (dirOf a b) == b) && adjOK (b :: rest)
  | _ => true

/-- Membership in the left half of the grid. -/
def inLeftHalf (c : Cell) : Bool :=
  decide (0 ≤ c.1 ∧ c.1 < 15 ∧ 0 ≤ c.2 ∧ c.2 < 20)

/-- Membership in the right half of the grid. -/
def inRightHalf (c : Cell) : Bool :=
  decide (15 ≤ c.1 ∧ c.1 < 30 ∧ 0 ≤ c.2 ∧ c.2 < 20)

/-- An injective key for grid cells. -/
def posKey (c : Cell) : Nat :=
  c.1.toNat * 20 + c.2.toNat

/-- One-pass duplicate check on cell keys, carrying the set of already-seen
keys as a bit set. -/
def distinctKeys : List Cell → Nat → Bool
  | [], _ => true
  | c :: rest, seen =>
      !(seen.testBit (posKey c)) && distinctKeys rest (seen ||| (1 <<< posKey c))

/-! ## Basic lemmas about the embedded operations -/

theorem opposite_ne (d : Dir) : opposite d ≠ d := by
  cases d <;> decide

theorem process_input_next_direction (s : Snake) :
    s.process_input.next_direction =
      match s.input_queue with
      | [] => s.next_direction
      | d :: _ => if opposite d ≠ s.direction then d else s.next_direction := by
  unfold Snake.process_input
  cases s.input_queue with
  | nil => rfl
  | cons d rest =>
      by_cases h : opposite d ≠ s.direction <;> simp [h]

theorem process_input_body (s : Snake) : s.process_input.body = s.body := by
  unfold Snake.process_input
  cases s.input_queue with
  | nil => rfl
  | cons d rest => by_cases h : opposite d ≠ s.direction <;> simp [h]

theorem process_input_direction (s : Snake) : s.process_input.direction = s.direction := by
  unfold Snake.process_input
  cases s.input_queue with
  | nil => rfl
  | cons d rest => by_cases h : opposite d ≠ s.direction <;> simp [h]

theorem process_input_alive (s : Snake) : s.process_input.alive = s.alive := by
  unfold Snake.process_input
  cases s.input_queue with
  | nil => rfl
  | cons d rest => by_cases h : opposite d ≠ s.direction <;> simp [h]

theorem process_input_player_id (s : Snake) : s.process_input.player_id = s.player_id := by
  unfold Snake.process_input
  cases s.input_queue with
  | nil => rfl
  | cons d rest => by_cases h : opposite d ≠ s.direction <;> simp [h]

theorem get_next_head_eq (s : Snake) :
    s.get_next_head = stepCell s.head s.process_input.next_direction := by
  rw [process_input_next_direction]
  unfold Snake.get_next_head
  cases s.input_queue with
  | nil => rfl
  | cons d rest => by_cases h : opposite d ≠ s.direction <;> simp [h]

theorem move_body (s : Snake) (grow : Bool) :
    (s.move grow).body =
      if grow then s.get_next_head :: s.body else (s.get_next_head :: s.body).dropLast := by
  unfold Snake.move
  rw [get_next_head_eq]
  simp [process_input_body, Snake.head]

theorem move_alive (s : Snake) (grow : Bool) : (s.move grow).alive = s.alive := by
  unfold Snake.move
  simp [process_input_alive]

theorem move_player_id (s : Snake) (grow : Bool) : (s.move grow).player_id = s.player_id := by
  unfold Snake.move
  simp [process_input_player_id]

theorem move_direction (s : Snake) (grow : Bool) :
    (s.move grow).direction = s.process_input.next_direction := by
  unfold Snake.move
  simp

theorem move_next_direction (s : Snake) (grow : Bool) :
    (s.move grow).next_direction = s.process_input.next_direction := by
  unfold Snake.move
  simp

theorem move_head (s : Snake) (grow : Bool) (h : s.body ≠ []) :
    (s.move grow).head = s.get_next_head := by
  rw [Snake.head, move_body]
  cases grow with
  | true => simp
  | false =>
      cases hb : s.body with
      | nil => exact absurd hb h
      | cons x xs => simp [List.dropLast]

theorem move_head_mem (s : Snake) (grow : Bool) (h : s.body ≠ []) :
    (s.move grow).head ∈ (s.move grow).body := by
  rw [move_head s grow h, move_body]
  cases grow with
  | true => simp
  | false =>
      cases hb : s.body with
      | nil => exact absurd hb h
      | cons x xs => simp [List.dropLast]

theorem move_length (s : Snake) (grow : Bool) :
    (s.move grow).body.length = s.body.length + (if grow then 1 else 0) := by
  rw [move_body]
  cases grow with
  | true => simp
  | false => simp

theorem move_body_subset (s : Snake) (grow : Bool) :
    (s.move grow).body ⊆ s.get_next_head :: s.body := by
  rw [move_body]
  cases grow with
  | true => simp
  | false => exact fun a ha => (List.dropLast_sublist _).subset ha

theorem queue_direction_body (s : Snake) (d : Dir) :
    (s.queue_direction d).body = s.body := by
  unfold Snake.queue_direction
  split <;> rfl

theorem queue_direction_direction (s : Snake) (d : Dir) :
    (s.queue_direction d).direction = s.direction := by
  unfold Snake.queue_direction
  split <;> rfl

theorem queue_direction_next_direction (s : Snake) (d : Dir) :
    (s.queue_direction d).next_direction = s.next_direction := by
  unfold Snake.queue_direction
  split <;> rfl

theorem queue_direction_alive (s : Snake) (d : Dir) :
    (s.queue_direction d).alive = s.alive := by
  unfold Snake.queue_direction
  split <;> rfl

theorem queue_direction_player_id (s : Snake) (d : Dir) :
    (s.queue_direction d).player_id = s.player_id := by
  unfold Snake.queue_direction
  split <;> rfl

/-! ## Claim C6: the peek rule and the consume rule agree -/

/-- C6: for every Competitor state, the prospective head returned by the peek
phase (`get_next_head`) equals the head position actually produced by running
the consume/move phase (`move`) on that same state, for either growth flag. -/
theorem c6_peek_consume_agree (s : Snake) (grow : Bool) (h : s.body ≠ []) :
    (s.move grow).head = s.get_next_head :=
  move_head s grow h

/-- Witness for C6 at a concrete snake. -/
theorem c6_peek_consume_agree_witness :
    (Snake.init 1 (5, 10) Dir.right).body ≠ [] ∧
    ((Snake.init 1 (5, 10) Dir.right).move false).head =
      (Snake.init 1 (5, 10) Dir.right).get_next_head :=
  ⟨by decide, c6_peek_consume_agree _ false (by decide)⟩

/-! ## Claim C5: no immediate reversal of committed directions -/

theorem applyOps_inv (ops : List SnakeOp) (s : Snake)
    (h : opposite s.next_direction ≠ s.direction) :
    opposite (applySnakeOps s ops).next_direction ≠ (applySnakeOps s ops).direction := by
  induction ops generalizing s with
  | nil => exact h
  | cons op rest ih =>
      show opposite (applySnakeOps (applySnakeOp s op) rest).next_direction ≠
        (applySnakeOps (applySnakeOp s op) rest).direction
      apply ih
      cases op with
      | queue d =>
          rw [applySnakeOp, queue_direction_next_direction, queue_direction_direction]
          exact h
      | tick grow =>
          rw [applySnakeOp, move_next_direction, move_direction]
          exact opposite_ne _

theorem move_no_reversal (s : Snake) (grow : Bool)
    (h : opposite s.next_direction ≠ s.direction) :
    opposite (s.move grow).direction ≠ s.direction := by
  rw [move_direction, process_input_next_direction]
  cases hq : s.input_queue with
  | nil => exact h
  | cons d rest =>
      show opposite (if opposite d ≠ s.direction then d else s.next_direction) ≠ s.direction
      by_cases hop : opposite d ≠ s.direction
      · rw [if_pos hop]; exact hop
      · rw [if_neg hop]; exact h

/-- C5: starting from any freshly initialised Competitor and after any
interleaving of `queue_direction` calls and committed moves, one further
committed move never reverses the committed direction
(`opposite new ≠ old`). -/
theorem c5_no_reversal (pid : Nat) (pos : Cell) (d0 : Dir) (ops : List SnakeOp) (grow : Bool) :
    opposite ((applySnakeOps (Snake.init pid pos d0) ops).move grow).direction ≠
      (applySnakeOps (Snake.init pid pos d0) ops).direction :=
  move_no_reversal _ grow (applyOps_inv ops _ (opposite_ne d0))

/-! ## Claim C3: which queued directions are accepted -/

/-- C3 as stated is false: the claim says a direction is appended whenever it
is not the opposite of the queue tail (resp. active direction), but the code
also silently rejects a direction equal to that reference direction. At a
fresh snake facing right, queueing `right` is not the opposite of `right`,
yet nothing is appended. -/
theorem c3_counterexample :
    ¬ (∀ (s : Snake) (d : Dir), opposite d ≠ s.lastQueued →
        (s.queue_direction d).input_queue = capAppend s.input_queue d) := by
  intro h
  have h1 := h (Snake.init 1 (5, 10) Dir.right) Dir.right (by decide)
  exact absurd h1 (by decide)

/-- C3 amended: `queue_direction` appends (with the 3-cap) exactly when the
direction is neither the opposite of nor equal to the queue's last entry (or
the committed next direction when the queue is empty); otherwise the snake is
left completely unchanged, and no error is raised (the function is total). -/
theorem c3_amended (s : Snake) (d : Dir) :
    (s.queue_direction d).input_queue =
      (if opposite d ≠ s.lastQueued ∧ d ≠ s.lastQueued then capAppend s.input_queue d
       else s.input_queue) ∧
    (s.queue_direction d).direction = s.direction ∧
    (s.queue_direction d).next_direction = s.next_direction ∧
    (s.queue_direction d).body = s.body ∧
    (s.queue_direction d).alive = s.alive := by
  refine ⟨?_, queue_direction_direction s d, queue_direction_next_direction s d,
    queue_direction_body s d, queue_direction_alive s d⟩
  unfold Snake.queue_direction capAppend
  split <;> rfl

/-! ## Claim C9: the pending queue is capped at 3, oldest dropped -/

theorem queue_direction_length_le (s : Snake) (d : Dir) (h : s.input_queue.length ≤ 3) :
    (s.queue_direction d).input_queue.length ≤ 3 := by
  unfold Snake.queue_direction
  split
  · simp only
    split
    · simp
      exact h
    · rename_i hle
      simp at hle ⊢
      omega
  · exact h

/-- C9: after any sequence of `queue_direction` calls on a fresh Competitor
the pending queue holds at most 3 entries; and whenever an accepted direction
arrives at a full queue, the oldest entry is the one dropped. -/
theorem c9_queue_cap :
    (∀ (pid : Nat) (pos : Cell) (d0 : Dir) (ds : List Dir),
      ((ds.foldl Snake.queue_direction (Snake.init pid pos d0)).input_queue).length ≤ 3) ∧
    (∀ (s : Snake) (d : Dir), s.input_queue.length = 3 →
      opposite d ≠ s.lastQueued → d ≠ s.lastQueued →
      (s.queue_direction d).input_queue = s.input_queue.tail ++ [d]) := by
  constructor
  · intro pid pos d0 ds
    have aux : ∀ (l : List Dir) (s : Snake), s.input_queue.length ≤ 3 →
        ((l.foldl Snake.queue_direction s).input_queue).length ≤ 3 := by
      intro l
      induction l with
      | nil => intro s h; exact h
      | cons d rest ih =>
          intro s h
          exact ih _ (queue_direction_length_le s d h)
    exact aux ds _ (by simp [Snake.init])
  · intro s d hlen h1 h2
    unfold Snake.queue_direction
    rw [if_pos ⟨h1, h2⟩]
    have hq : 3 < (s.input_queue ++ [d]).length := by simp [hlen]
    simp only [hq, if_true]
    rw [List.drop_append_of_le_length (by omega), List.drop_one]

/-- Witness for C9 at concrete inputs. -/
theorem c9_queue_cap_witness :
    ((([Dir.up, Dir.left, Dir.up, Dir.left] : List Dir).foldl Snake.queue_direction
        (Snake.init 1 (5, 10) Dir.right)).input_queue).length ≤ 3 ∧
    ((⟨1, [(5, 10)], Dir.right, Dir.right, [Dir.up, Dir.right, Dir.up], true⟩ : Snake).queue_direction
        Dir.left).input_queue = [Dir.up, Dir.right, Dir.up].tail ++ [Dir.left] :=
  ⟨c9_queue_cap.1 1 (5, 10) Dir.right _,
   c9_queue_cap.2 _ Dir.left (by decide) (by decide) (by decide)⟩

/-! ## Field-preservation lemmas for the game-step functions -/

theorem spawn_food_mode (p : List Cell → Cell) (g : Game) : (g.spawn_food p).mode = g.mode := by
  unfold Game.spawn_food
  dsimp only
  split <;> rfl

theorem spawn_food_running (p : List Cell → Cell) (g : Game) :
    (g.spawn_food p).running = g.running := by
  unfold Game.spawn_food
  dsimp only
  split <;> rfl

theorem spawn_food_winner (p : List Cell → Cell) (g : Game) :
    (g.spawn_food p).winner = g.winner := by
  unfold Game.spawn_food
  dsimp only
  split <;> rfl

theorem spawn_food_snake1 (p : List Cell → Cell) (g : Game) :
    (g.spawn_food p).snake1 = g.snake1 := by
  unfold Game.spawn_food
  dsimp only
  split <;> rfl

theorem spawn_food_snake2 (p : List Cell → Cell) (g : Game) :
    (g.spawn_food p).snake2 = g.snake2 := by
  unfold Game.spawn_food
  dsimp only
  split <;> rfl

theorem phase1_mode (p : List Cell → Cell) (g : Game) : (g.phase1 p).mode = g.mode := by
  unfold Game.phase1
  dsimp only
  split
  · split
    · rw [spawn_food_mode]
    · rfl
  · rfl

theorem phase2_mode (p : List Cell → Cell) (g : Game) : (g.phase2 p).mode = g.mode := by
  unfold Game.phase2
  dsimp only
  split
  · split
    · rw [spawn_food_mode]
    · rfl
  · rfl

theorem collisions_mode (g : Game) : g.collisions.mode = g.mode := rfl

theorem endCheck_mode (g : Game) : g.endCheck.mode = g.mode := by
  unfold Game.endCheck
  dsimp only
  split <;> split <;> rfl

theorem update_mode (p1 p2 : List Cell → Cell) (g : Game) :
    (g.update p1 p2).mode = g.mode := by
  unfold Game.update
  split
  · rw [endCheck_mode, collisions_mode, phase2_mode, phase1_mode]
  · rfl

theorem game_init_mode (pick : List Cell → Cell) : (Game.init pick).mode = "two_player" := by
  unfold Game.init Game.resetState
  rw [spawn_food_mode]

theorem game_init_running (pick : List Cell → Cell) : (Game.init pick).running = false := by
  unfold Game.init Game.resetState
  rw [spawn_food_running]

/-! ## Claim C10: the Match mode is always "two_player" -/

/-- C10: `start_game` always installs a Match whose `mode` is "two_player"
regardless of the room's pending mode; the per-tick snapshot (`to_dict`)
therefore reports "two_player" at start and after every tick (ticks preserve
`mode`); only the one-time `start` notification carries the pending mode. -/
theorem c10_mode_always_two_player (r : GameRoom) (pick p1 p2 : List Cell → Cell) (g : Game) :
    (r.start_game pick).1.game.mode = "two_player" ∧
    ((r.start_game pick).1.game.to_dict).mode = "two_player" ∧
    (r.start_game pick).2.mode = r.pending_mode ∧
    (g.update p1 p2).mode = g.mode ∧
    ((g.update p1 p2).to_dict).mode = (g.update p1 p2).mode := by
  refine ⟨?_, ?_, rfl, update_mode p1 p2 g, rfl⟩
  · exact game_init_mode pick
  · exact game_init_mode pick

/-! ## Claim C7: disconnect resets the room -/

/-- C7 as stated is false in one respect: `disconnect_player` only discards
the departing slot from the ready set (`self.ready.discard(player_id)`), it
does not clear the whole set — the opponent's ready mark survives the reset.
Concretely, with both slots ready, disconnecting slot 1 leaves slot 2's mark. -/
theorem c7_counterexample :
    ¬ (∀ (r : GameRoom) (pick : List Cell → Cell) (pid : Nat),
        (r.disconnect_player pick pid).ready = []) := by
  intro h
  have h1 := h ⟨7, Game.init pickHead, [(1, 11), (2, 22)], [], [1, 2], some 1, "vs_ai",
    some 5, 2, 1, "A", "B"⟩ pickHead 1
  exact absurd h1 (by decide)

/-- C7 amended: `disconnect_player` cancels the tick-loop task, drops the bot
process, installs a fresh idle `Game()`, removes (only) the departing slot
from the ready set, resets pending mode, win counters and display names, and
frees the departing slot so that `get_available_slot` immediately offers a
slot to a new joiner. -/
theorem c7_amended (r : GameRoom) (pick : List Cell → Cell) (pid : Nat) :
    (r.disconnect_player pick pid).game_task = none ∧
    (r.disconnect_player pick pid).bot_process = none ∧
    (r.disconnect_player pick pid).game = Game.init pick ∧
    (r.disconnect_player pick pid).game.running = false ∧
    (r.disconnect_player pick pid).ready = r.ready.filter (fun q => q ≠ pid) ∧
    (r.disconnect_player pick pid).pending_mode = "two_player" ∧
    (r.disconnect_player pick pid).wins1 = 0 ∧
    (r.disconnect_player pick pid).wins2 = 0 ∧
    (r.disconnect_player pick pid).names1 = "Player 1" ∧
    (r.disconnect_player pick pid).names2 = "Player 2" ∧
    pid ∉ (r.disconnect_player pick pid).connections.map Prod.fst ∧
    (r.disconnect_player pick 1).get_available_slot = some 1 ∧
    ((r.disconnect_player pick 2).get_available_slot).isSome = true := by
  have hnotmem : ∀ q : Nat, q ∉ (r.disconnect_player pick q).connections.map Prod.fst := by
    intro q hq
    rw [GameRoom.disconnect_player] at hq
    simp only [List.mem_map, List.mem_filter] at hq
    obtain ⟨p, ⟨_, hne⟩, heq⟩ := hq
    rw [heq] at hne
    simp at hne
  refine ⟨rfl, rfl, rfl, game_init_running pick, rfl, rfl, rfl, rfl, rfl, rfl,
    hnotmem pid, ?_, ?_⟩
  · rw [GameRoom.get_available_slot, if_pos (hnotmem 1)]
  · rw [GameRoom.get_available_slot]
    by_cases h1 : 1 ∈ (r.disconnect_player pick 2).connections.map Prod.fst
    · rw [if_neg (by simpa using h1), if_pos (hnotmem 2)]
      rfl
    · rw [if_pos h1]
      rfl

/-! ## Characterisations of the two move-loop iterations -/

theorem grow_val (food : Option Cell) (nh : Cell) :
    (match food with | some f => decide (nh = f) | none => false) =
      decide (food = some nh) := by
  cases food with
  | none => simp
  | some f =>
      apply Bool.decide_congr
      constructor
      · intro h; rw [h]
      · intro h; injection h with h1; rw [h1]

theorem phase1_not_grow (p : List Cell → Cell) (g : Game) (ha : g.snake1.alive = true)
    (h : g.food ≠ some g.snake1.get_next_head) :
    g.phase1 p = { g with snake1 := g.snake1.move false } := by
  unfold Game.phase1
  rw [if_pos ha]
  dsimp only
  rw [grow_val, decide_eq_false h]
  simp

theorem phase1_grow (p : List Cell → Cell) (g : Game) (ha : g.snake1.alive = true)
    (h : g.food = some g.snake1.get_next_head) :
    g.phase1 p = ({ g with snake1 := g.snake1.move true } : Game).spawn_food p := by
  unfold Game.phase1
  rw [if_pos ha]
  dsimp only
  rw [grow_val, decide_eq_true h]
  simp

theorem phase1_dead (p : List Cell → Cell) (g : Game) (ha : g.snake1.alive = false) :
    g.phase1 p = g := by
  unfold Game.phase1
  rw [if_neg (by rw [ha]; exact Bool.false_ne_true)]

theorem phase2_not_grow (p : List Cell → Cell) (g : Game) (ha : g.snake2.alive = true)
    (h : g.food ≠ some g.snake2.get_next_head) :
    g.phase2 p = { g with snake2 := g.snake2.move false } := by
  unfold Game.phase2
  rw [if_pos ha]
  dsimp only
  rw [grow_val, decide_eq_false h]
  simp

theorem phase2_grow (p : List Cell → Cell) (g : Game) (ha : g.snake2.alive = true)
    (h : g.food = some g.snake2.get_next_head) :
    g.phase2 p = ({ g with snake2 := g.snake2.move true } : Game).spawn_food p := by
  unfold Game.phase2
  rw [if_pos ha]
  dsimp only
  rw [grow_val, decide_eq_true h]
  simp

theorem phase2_dead (p : List Cell → Cell) (g : Game) (ha : g.snake2.alive = false) :
    g.phase2 p = g := by
  unfold Game.phase2
  rw [if_neg (by rw [ha]; exact Bool.false_ne_true)]

theorem collideCheck_body (s other : Snake) : (collideCheck s other).body = s.body := by
  unfold collideCheck
  split <;> rfl

theorem collideCheck_dead_of_mem_other (s other : Snake) (ha : s.alive = true)
    (h : s.head ∈ other.body) : (collideCheck s other).alive = false := by
  unfold collideCheck
  rw [if_pos ha]
  simp [h]

theorem endCheck_of_both_dead (g : Game) (h1 : g.snake1.alive = false)
    (h2 : g.snake2.alive = false) :
    g.endCheck = { g with running := false, winner := none } := by
  unfold Game.endCheck
  dsimp only
  rw [h1, h2]
  simp

/-! ## Claim C1: head-on collision kills both snakes in the same tick -/

/-- C1: in a running Match with both Competitors alive, if their prospective
next heads (peek rule) coincide at a cell that is not the Food cell, then a
single `update` marks both dead, stops the Match, and leaves the winner
absent. -/
theorem c1_mutual_kill (g : Game) (p1 p2 : List Cell → Cell) (c : Cell)
    (hrun : g.running = true)
    (ha1 : g.snake1.alive = true) (ha2 : g.snake2.alive = true)
    (hb1 : g.snake1.body ≠ []) (hb2 : g.snake2.body ≠ [])
    (hn1 : g.snake1.get_next_head = c) (hn2 : g.snake2.get_next_head = c)
    (hfood : g.food ≠ some c) :
    (g.update p1 p2).snake1.alive = false ∧
    (g.update p1 p2).snake2.alive = false ∧
    (g.update p1 p2).running = false ∧
    (g.update p1 p2).winner = none := by
  have hg1 : g.phase1 p1 = { g with snake1 := g.snake1.move false } :=
    phase1_not_grow p1 g ha1 (by rw [hn1]; exact hfood)
  have hg2 : ({ g with snake1 := g.snake1.move false } : Game).phase2 p2 =
      { g with snake1 := g.snake1.move false, snake2 := g.snake2.move false } :=
    phase2_not_grow p2 _ ha2 (by rw [show ({ g with snake1 := g.snake1.move false } :
      Game).snake2.get_next_head = c from hn2]; exact hfood)
  have halive1 : (g.snake1.move false).alive = true := by rw [move_alive]; exact ha1
  have halive2 : (g.snake2.move false).alive = true := by rw [move_alive]; exact ha2
  have hh1 : (g.snake1.move false).head = c := by rw [move_head _ _ hb1, hn1]
  have hh2 : (g.snake2.move false).head = c := by rw [move_head _ _ hb2, hn2]
  have hm1 : c ∈ (g.snake1.move false).body := by rw [← hh1]; exact move_head_mem _ _ hb1
  have hm2 : c ∈ (g.snake2.move false).body := by rw [← hh2]; exact move_head_mem _ _ hb2
  have hdead1 : (collideCheck (g.snake1.move false) (g.snake2.move false)).alive = false :=
    collideCheck_dead_of_mem_other _ _ halive1 (by rw [hh1]; exact hm2)
  have hdead2 : (collideCheck (g.snake2.move false)
      (collideCheck (g.snake1.move false) (g.snake2.move false))).alive = false :=
    collideCheck_dead_of_mem_other _ _ halive2
      (by rw [hh2, collideCheck_body]; exact hm1)
  have hupd : g.update p1 p2 =
      Game.endCheck
        { g with
          snake1 := collideCheck (g.snake1.move false) (g.snake2.move false)
          snake2 := collideCheck (g.snake2.move false)
            (collideCheck (g.snake1.move false) (g.snake2.move false)) } := by
    unfold Game.update
    rw [if_pos hrun, hg1, hg2]
    rfl
  rw [hupd, endCheck_of_both_dead _ hdead1 hdead2]
  exact ⟨hdead1, hdead2, rfl, rfl⟩

/-- Witness for C1: two length-1 snakes facing each other across cell (6, 10),
food elsewhere. -/
theorem c1_mutual_kill_witness :
    ((⟨Snake.init 1 (5, 10) Dir.right, Snake.init 2 (7, 10) Dir.left, some (0, 0), true, none,
        "two_player"⟩ : Game).update pickHead pickHead).snake1.alive = false ∧
    ((⟨Snake.init 1 (5, 10) Dir.right, Snake.init 2 (7, 10) Dir.left, some (0, 0), true, none,
        "two_player"⟩ : Game).update pickHead pickHead).snake2.alive = false ∧
    ((⟨Snake.init 1 (5, 10) Dir.right, Snake.init 2 (7, 10) Dir.left, some (0, 0), true, none,
        "two_player"⟩ : Game).update pickHead pickHead).running = false ∧
    ((⟨Snake.init 1 (5, 10) Dir.right, Snake.init 2 (7, 10) Dir.left, some (0, 0), true, none,
        "two_player"⟩ : Game).update pickHead pickHead).winner = none :=
  c1_mutual_kill _ pickHead pickHead (6, 10) rfl rfl rfl (by decide) (by decide)
    (by decide) (by decide) (by decide)

/-! ## Counting free cells and food-respawn lemmas -/

set_option maxRecDepth 100000 in
theorem gridCells_length : gridCells.length = 600 := by decide

theorem distinctKeys_spec (l : List Cell) : ∀ seen : Nat, distinctKeys l seen = true →
    (l.map posKey).Nodup ∧ ∀ c ∈ l, seen.testBit (posKey c) = false := by
  induction l with
  | nil =>
      intro seen _
      exact ⟨List.nodup_nil, by intro c hc; exact absurd hc (List.not_mem_nil c)⟩
  | cons a rest ih =>
      intro seen h
      rw [show distinctKeys (a :: rest) seen =
        (!(seen.testBit (posKey a)) && distinctKeys rest (seen ||| (1 <<< posKey a))) from rfl,
        Bool.and_eq_true] at h
      obtain ⟨h1, h2⟩ := h
      obtain ⟨ihn, ihs⟩ := ih _ h2
      have hrest : ∀ c ∈ rest, posKey c ≠ posKey a := by
        intro c hc hkey
        have hb := ihs c hc
        rw [Nat.testBit_or, Bool.or_eq_false_iff] at hb
        have h3 := hb.2
        rw [Nat.shiftLeft_eq, one_mul, Nat.testBit_two_pow, hkey] at h3
        simp at h3
      constructor
      · rw [List.map_cons, List.nodup_cons]
        refine ⟨?_, ihn⟩
        intro hmem
        rw [List.mem_map] at hmem
        obtain ⟨c, hc, hck⟩ := hmem
        exact hrest c hc hck
      · intro c hc
        rw [List.mem_cons] at hc
        rcases hc with rfl | hc
        · simpa using h1
        · have hb := ihs c hc
          rw [Nat.testBit_or, Bool.or_eq_false_iff] at hb
          exact hb.1

theorem nodup_of_distinctKeys (l : List Cell) (h : distinctKeys l 0 = true) : l.Nodup :=
  List.Nodup.of_map posKey (distinctKeys_spec l 0 h).1

set_option maxRecDepth 10000 in
theorem gridCells_distinct : distinctKeys gridCells 0 = true := by decide

theorem gridCells_nodup : gridCells.Nodup :=
  nodup_of_distinctKeys gridCells gridCells_distinct

theorem filter_free_ne_nil (occ : List Cell) (h : occ.length ≤ 599) :
    gridCells.filter (fun c => !decide (c ∈ occ)) ≠ [] := by
  intro hnil
  have hsub : gridCells ⊆ occ := by
    intro c hc
    by_contra hmem
    have hcf : c ∈ gridCells.filter (fun c => !decide (c ∈ occ)) := by
      rw [List.mem_filter]
      exact ⟨hc, by simp [hmem]⟩
    rw [hnil] at hcf
    exact absurd hcf (List.not_mem_nil c)
  have h1 : gridCells.toFinset.card = 600 := by
    rw [List.toFinset_card_of_nodup gridCells_nodup, gridCells_length]
  have h2 : gridCells.toFinset ⊆ occ.toFinset := by
    intro x hx
    rw [List.mem_toFinset] at hx ⊢
    exact hsub hx
  have h3 : occ.toFinset.card ≤ occ.length := occ.toFinset_card_le
  have h4 := Finset.card_le_card h2
  omega

theorem spawn_food_sets (p : List Cell → Cell) (g : Game)
    (hne : gridCells.filter (fun c => !decide (c ∈ occupiedCells g)) ≠ []) :
    (g.spawn_food p).food =
      some (p (gridCells.filter (fun c => !decide (c ∈ occupiedCells g)))) := by
  unfold Game.spawn_food
  dsimp only
  rw [if_pos hne]

theorem spawn_food_avoid (p : List Cell → Cell) (hp : ValidPick p) (g : Game)
    (hne : gridCells.filter (fun c => !decide (c ∈ occupiedCells g)) ≠ []) :
    ∀ c : Cell, (g.spawn_food p).food = some c → c ∉ occupiedCells g := by
  intro c hc
  rw [spawn_food_sets p g hne] at hc
  injection hc with hc
  subst hc
  have hmem := hp _ hne
  rw [List.mem_filter] at hmem
  simpa using hmem.2

/-! ## More field-preservation lemmas for the tick pipeline -/

theorem endCheck_snake1 (g : Game) : g.endCheck.snake1 = g.snake1 := by
  unfold Game.endCheck
  dsimp only
  split <;> split <;> rfl

theorem endCheck_snake2 (g : Game) : g.endCheck.snake2 = g.snake2 := by
  unfold Game.endCheck
  dsimp only
  split <;> split <;> rfl

theorem endCheck_food (g : Game) : g.endCheck.food = g.food := by
  unfold Game.endCheck
  dsimp only
  split <;> split <;> rfl

theorem collisions_snake1_body (g : Game) : g.collisions.snake1.body = g.snake1.body := by
  rw [show g.collisions.snake1 = collideCheck g.snake1 g.snake2 from rfl, collideCheck_body]

theorem collisions_snake2_body (g : Game) : g.collisions.snake2.body = g.snake2.body := by
  rw [show g.collisions.snake2 = collideCheck g.snake2 (collideCheck g.snake1 g.snake2) from rfl,
    collideCheck_body]

theorem collisions_food (g : Game) : g.collisions.food = g.food := rfl

theorem phase1_snake2 (p : List Cell → Cell) (g : Game) : (g.phase1 p).snake2 = g.snake2 := by
  unfold Game.phase1
  dsimp only
  split
  · split
    · rw [spawn_food_snake2]
    · rfl
  · rfl

theorem phase2_snake1 (p : List Cell → Cell) (g : Game) : (g.phase2 p).snake1 = g.snake1 := by
  unfold Game.phase2
  dsimp only
  split
  · split
    · rw [spawn_food_snake1]
    · rfl
  · rfl

theorem phase1_snake1 (p : List Cell → Cell) (g : Game) (ha : g.snake1.alive = true) :
    (g.phase1 p).snake1 = g.snake1.move (decide (g.food = some g.snake1.get_next_head)) := by
  by_cases hf : g.food = some g.snake1.get_next_head
  · rw [phase1_grow p g ha hf, spawn_food_snake1, decide_eq_true hf]
  · rw [phase1_not_grow p g ha hf, decide_eq_false hf]

theorem phase2_snake2 (p : List Cell → Cell) (g : Game) (ha : g.snake2.alive = true) :
    (g.phase2 p).snake2 = g.snake2.move (decide (g.food = some g.snake2.get_next_head)) := by
  by_cases hf : g.food = some g.snake2.get_next_head
  · rw [phase2_grow p g ha hf, spawn_food_snake2, decide_eq_true hf]
  · rw [phase2_not_grow p g ha hf, decide_eq_false hf]

theorem update_snake1_body (p1 p2 : List Cell → Cell) (g : Game) (hrun : g.running = true) :
    (g.update p1 p2).snake1.body = (g.phase1 p1).snake1.body := by
  unfold Game.update
  rw [if_pos hrun, endCheck_snake1, collisions_snake1_body, phase2_snake1]

theorem update_snake2_body (p1 p2 : List Cell → Cell) (g : Game) (hrun : g.running = true) :
    (g.update p1 p2).snake2.body = ((g.phase1 p1).phase2 p2).snake2.body := by
  unfold Game.update
  rw [if_pos hrun, endCheck_snake2, collisions_snake2_body]

/-! ## Claim C2: which food state each growth decision observes -/

set_option maxRecDepth 100000 in
set_option maxHeartbeats 1000000 in
/-- C2 as stated is false: the source respawns the food immediately after a
growing snake's move, inside the move loop, so snake 2's growth decision can
observe a food cell respawned mid-tick. Concretely: snake 1 eats the food at
(6, 10); the respawn lands on (23, 10), exactly snake 2's prospective head;
snake 2 then also grows this tick although its prospective head differed from
the food as it stood at the start of the tick. -/
theorem c2_counterexample :
    ¬ (∀ (g : Game) (p1 p2 : List Cell → Cell),
        g.running = true → g.snake1.alive = true → g.snake2.alive = true →
        (g.update p1 p2).snake2.body.length =
          g.snake2.body.length +
            (if g.food = some g.snake2.get_next_head then 1 else 0)) := by
  intro h
  have h1 := h ⟨Snake.init 1 (5, 10) Dir.right, Snake.init 2 (24, 10) Dir.left, some (6, 10),
    true, none, "two_player"⟩ (pickTarget (23, 10)) pickHead rfl rfl rfl
  exact absurd h1 (by decide)

/-- C2 amended: within one tick, snake 1's growth decision compares its
prospective head with the Food as it stood at the start of the tick; snake
2's growth decision compares with the Food as it stands after snake 1's
iteration (possibly already respawned mid-tick); the Food is unchanged by
snake 1's iteration when snake 1 does not grow; and a respawn triggered by
snake 1's growth happens immediately after snake 1's move, its free-cell set
reflecting snake 1's post-move body but snake 2's pre-move body. -/
theorem c2_amended (g : Game) (p1 p2 : List Cell → Cell)
    (hrun : g.running = true) (ha1 : g.snake1.alive = true) (ha2 : g.snake2.alive = true) :
    ((g.update p1 p2).snake1.body.length =
      g.snake1.body.length + (if g.food = some g.snake1.get_next_head then 1 else 0)) ∧
    ((g.update p1 p2).snake2.body.length =
      g.snake2.body.length +
        (if (g.phase1 p1).food = some g.snake2.get_next_head then 1 else 0)) ∧
    (g.food ≠ some g.snake1.get_next_head → (g.phase1 p1).food = g.food) ∧
    (g.food = some g.snake1.get_next_head → ValidPick p1 → totalBodyLen g ≤ 598 →
      ∀ c : Cell, (g.phase1 p1).food = some c →
        c ∉ (g.snake1.move true).body ∧ c ∉ g.snake2.body) := by
  refine ⟨?_, ?_, ?_, ?_⟩
  · rw [update_snake1_body p1 p2 g hrun, phase1_snake1 p1 g ha1, move_length]
    simp only [decide_eq_true_eq]
  · rw [update_snake2_body p1 p2 g hrun,
      phase2_snake2 p2 _ (by rw [phase1_snake2]; exact ha2), phase1_snake2, move_length]
    simp only [decide_eq_true_eq]
  · intro hf
    rw [phase1_not_grow p1 g ha1 hf]
  · intro hf hp hlen c hc
    rw [phase1_grow p1 g ha1 hf] at hc
    have hocc : (occupiedCells { g with snake1 := g.snake1.move true }).length ≤ 599 := by
      unfold occupiedCells totalBodyLen at *
      simp only [List.length_append] at *
      rw [move_length]
      simp
      omega
    have havoid := spawn_food_avoid p1 hp _ (filter_free_ne_nil _ hocc) c hc
    unfold occupiedCells at havoid
    rw [List.mem_append] at havoid
    push_neg at havoid
    exact havoid

/-- Witness for C2 amended, at the counterexample's input: snake 2's growth is
decided against the mid-tick food state. -/
theorem c2_amended_witness :
    ((⟨Snake.init 1 (5, 10) Dir.right, Snake.init 2 (24, 10) Dir.left, some (6, 10),
        true, none, "two_player"⟩ : Game).update (pickTarget (23, 10)) pickHead).snake2.body.length =
      (⟨Snake.init 1 (5, 10) Dir.right, Snake.init 2 (24, 10) Dir.left, some (6, 10),
        true, none, "two_player"⟩ : Game).snake2.body.length +
        (if ((⟨Snake.init 1 (5, 10) Dir.right, Snake.init 2 (24, 10) Dir.left, some (6, 10),
            true, none, "two_player"⟩ : Game).phase1 (pickTarget (23, 10))).food =
            some ((⟨Snake.init 1 (5, 10) Dir.right, Snake.init 2 (24, 10) Dir.left, some (6, 10),
              true, none, "two_player"⟩ : Game).snake2.get_next_head) then 1 else 0) :=
  (c2_amended _ (pickTarget (23, 10)) pickHead rfl rfl rfl).2.1

/-! ## Validity of the concrete choice functions -/

theorem validPick_pickHead : ValidPick pickHead := by
  intro l hl
  cases l with
  | nil => exact absurd rfl hl
  | cons a t => exact List.mem_cons_self a t

theorem validPick_pickTarget (c : Cell) : ValidPick (pickTarget c) := by
  intro l hl
  unfold pickTarget
  split
  · assumption
  · cases l with
    | nil => exact absurd rfl hl
    | cons a t => exact List.mem_cons_self a t

/-! ## Claim C4 (amended): the food invariant under bounded reachability -/

theorem game_init_foodInv (pick : List Cell → Cell) (hp : ValidPick pick) :
    foodInv (Game.init pick) := by
  intro c hc
  unfold Game.init Game.resetState at hc
  have havoid := spawn_food_avoid pick hp
    ⟨Snake.init 1 (5, 10) .right, Snake.init 2 (24, 10) .left, none, false, none, "two_player"⟩
    (filter_free_ne_nil _ (by decide)) c hc
  unfold occupiedCells at havoid
  simp only [Snake.init, List.mem_append] at havoid
  push_neg at havoid
  constructor
  · rw [show (Game.init pick).snake1 = Snake.init 1 (5, 10) .right from by
      rw [Game.init, Game.resetState, spawn_food_snake1]]
    exact havoid.1
  · rw [show (Game.init pick).snake2 = Snake.init 2 (24, 10) .left from by
      rw [Game.init, Game.resetState, spawn_food_snake2]]
    exact havoid.2

theorem queueDir_food (g : Game) (slot : Nat) (d : Dir) : (g.queueDir slot d).food = g.food := by
  unfold Game.queueDir
  split
  · rfl
  · split <;> rfl

theorem queueDir_snake1_body (g : Game) (slot : Nat) (d : Dir) :
    (g.queueDir slot d).snake1.body = g.snake1.body := by
  unfold Game.queueDir
  split
  · rw [show ({ g with snake1 := g.snake1.queue_direction d } : Game).snake1 =
      g.snake1.queue_direction d from rfl, queue_direction_body]
  · split <;> rfl

theorem queueDir_snake2_body (g : Game) (slot : Nat) (d : Dir) :
    (g.queueDir slot d).snake2.body = g.snake2.body := by
  unfold Game.queueDir
  split
  · rfl
  · split
    · rw [show ({ g with snake2 := g.snake2.queue_direction d } : Game).snake2 =
        g.snake2.queue_direction d from rfl, queue_direction_body]
    · rfl

theorem foodInv_queueDir (g : Game) (slot : Nat) (d : Dir) (h : foodInv g) :
    foodInv (g.queueDir slot d) := by
  intro c hc
  rw [queueDir_food] at hc
  rw [queueDir_snake1_body, queueDir_snake2_body]
  exact h c hc

theorem foodInv_phase1 (p : List Cell → Cell) (hp : ValidPick p) (g : Game)
    (hlen : totalBodyLen g ≤ 598) (hinv : foodInv g) : foodInv (g.phase1 p) := by
  by_cases ha : g.snake1.alive = true
  · by_cases hf : g.food = some g.snake1.get_next_head
    · rw [phase1_grow p g ha hf]
      intro c hc
      have hocc : (occupiedCells { g with snake1 := g.snake1.move true }).length ≤ 599 := by
        unfold occupiedCells totalBodyLen at *
        simp only [List.length_append] at *
        rw [move_length]
        simp only [if_true]
        omega
      have havoid := spawn_food_avoid p hp _ (filter_free_ne_nil _ hocc) c hc
      rw [spawn_food_snake1, spawn_food_snake2]
      unfold occupiedCells at havoid
      rw [List.mem_append] at havoid
      push_neg at havoid
      exact havoid
    · rw [phase1_not_grow p g ha hf]
      intro c hc
      have hc' : g.food = some c := hc
      have h0 := hinv c hc'
      refine ⟨?_, h0.2⟩
      intro hmem
      have hsub := move_body_subset g.snake1 false hmem
      rw [List.mem_cons] at hsub
      rcases hsub with h1 | h1
      · exact hf (by rw [hc', h1])
      · exact h0.1 h1
  · rw [phase1_dead p g (by simpa using ha)]
    exact hinv

theorem foodInv_phase2 (p : List Cell → Cell) (hp : ValidPick p) (g : Game)
    (hlen : totalBodyLen g ≤ 598) (hinv : foodInv g) : foodInv (g.phase2 p) := by
  by_cases ha : g.snake2.alive = true
  · by_cases hf : g.food = some g.snake2.get_next_head
    · rw [phase2_grow p g ha hf]
      intro c hc
      have hocc : (occupiedCells { g with snake2 := g.snake2.move true }).length ≤ 599 := by
        unfold occupiedCells totalBodyLen at *
        simp only [List.length_append] at *
        rw [move_length]
        simp only [if_true]
        omega
      have havoid := spawn_food_avoid p hp _ (filter_free_ne_nil _ hocc) c hc
      rw [spawn_food_snake1, spawn_food_snake2]
      unfold occupiedCells at havoid
      rw [List.mem_append] at havoid
      push_neg at havoid
      exact havoid
    · rw [phase2_not_grow p g ha hf]
      intro c hc
      have hc' : g.food = some c := hc
      have h0 := hinv c hc'
      refine ⟨h0.1, ?_⟩
      intro hmem
      have hsub := move_body_subset g.snake2 false hmem
      rw [List.mem_cons] at hsub
      rcases hsub with h1 | h1
      · exact hf (by rw [hc', h1])
      · exact h0.2 h1
  · rw [phase2_dead p g (by simpa using ha)]
    exact hinv

theorem totalBodyLen_phase1 (p : List Cell → Cell) (g : Game) :
    totalBodyLen (g.phase1 p) ≤ totalBodyLen g + 1 := by
  by_cases ha : g.snake1.alive = true
  · unfold totalBodyLen
    rw [show (g.phase1 p).snake2 = g.snake2 from phase1_snake2 p g,
      show (g.phase1 p).snake1 = _ from phase1_snake1 p g ha, move_length]
    cases decide (g.food = some g.snake1.get_next_head) <;> simp <;> omega
  · rw [phase1_dead p g (by simpa using ha)]
    omega

theorem foodInv_collisions (g : Game) (h : foodInv g) : foodInv g.collisions := by
  intro c hc
  rw [collisions_food] at hc
  rw [collisions_snake1_body, collisions_snake2_body]
  exact h c hc

theorem foodInv_endCheck (g : Game) (h : foodInv g) : foodInv g.endCheck := by
  intro c hc
  rw [endCheck_food] at hc
  rw [show g.endCheck.snake1 = g.snake1 from endCheck_snake1 g,
    show g.endCheck.snake2 = g.snake2 from endCheck_snake2 g]
  exact h c hc

theorem foodInv_update (p1 p2 : List Cell → Cell) (g : Game) (hp1 : ValidPick p1)
    (hp2 : ValidPick p2) (hlen : totalBodyLen g ≤ 597) (hinv : foodInv g) :
    foodInv (g.update p1 p2) := by
  unfold Game.update
  split
  · apply foodInv_endCheck
    apply foodInv_collisions
    apply foodInv_phase2 p2 hp2 _ (le_trans (totalBodyLen_phase1 p1 g) (by omega))
    exact foodInv_phase1 p1 hp1 g (by omega) hinv
  · exact hinv

/-- C4 amended: in every state reachable between ticks along a trace in which
every tick starts with combined body length at most 597 (so that each food
respawn inside the tick finds a free cell), the Food — when present — lies in
neither Competitor's body. (Without that bound the invariant fails: when the
bodies cover the whole grid at respawn time, `spawn_food` leaves the Food at
the just-eaten cell inside the eater's body; see the counterexample.) -/
theorem c4_amended (g : Game) (h : ReachableB g) : foodInv g := by
  induction h with
  | fresh pick hp => exact game_init_foodInv pick hp
  | started pick hp => exact game_init_foodInv pick hp
  | queue g slot d hrun hr ih => exact foodInv_queueDir g slot d ih
  | tick g p1 p2 hp1 hp2 hlen hr ih => exact foodInv_update p1 p2 g hp1 hp2 hlen ih

/-- Witness for C4 amended at the freshly created game. -/
theorem c4_amended_witness : foodInv (Game.init pickHead) :=
  c4_amended _ (ReachableB.fresh pickHead validPick_pickHead)

/-! ## Facts about the two Hamiltonian paths

The per-index facts needed by the trace proof are derived from a handful of
cheap one-pass decidable checks on the path lists (adjacency, no duplicate
cells, staying inside one half of the grid) plus counting arguments.
-/

set_option maxRecDepth 10000 in
theorem P1list_length : P1list.length = 300 := by decide

set_option maxRecDepth 10000 in
theorem P2list_length : P2list.length = 300 := by decide

set_option maxRecDepth 10000 in
set_option maxHeartbeats 1000000 in
theorem P1_adjOK : adjOK P1list = true := by decide

set_option maxRecDepth 10000 in
set_option maxHeartbeats 1000000 in
theorem P2_adjOK : adjOK P2list = true := by decide

set_option maxRecDepth 10000 in
set_option maxHeartbeats 1000000 in
theorem P1_left : P1list.all inLeftHalf = true := by decide

set_option maxRecDepth 10000 in
set_option maxHeartbeats 1000000 in
theorem P2_right : P2list.all inRightHalf = true := by decide

set_option maxRecDepth 10000 in
theorem P1_distinct : distinctKeys P1list 0 = true := by decide

theorem P1_nodup : P1list.Nodup :=
  nodup_of_distinctKeys P1list P1_distinct

set_option maxRecDepth 10000 in
theorem P2_distinct : distinctKeys P2list 0 = true := by decide

theorem P2_nodup : P2list.Nodup :=
  nodup_of_distinctKeys P2list P2_distinct

theorem dir_init1 : opposite (dir1 1) ≠ dir1 0 := by decide

theorem dir_init2 : opposite (dir2 1) ≠ dir2 0 := by decide

theorem adjOK_getD (l : List Cell) (h : adjOK l = true) :
    ∀ t, t + 1 < l.length →
      stepCell (l.getD t (0, 0)) (dirOf (l.getD t (0, 0)) (l.getD (t + 1) (0, 0))) =
        l.getD (t + 1) (0, 0) := by
  induction l with
  | nil => intro t ht; simp at ht
  | cons a rest ih =>
      cases rest with
      | nil => intro t ht; simp at ht
      | cons b rest2 =>
          intro t ht
          rw [show adjOK (a :: b :: rest2) =
            ((stepCell a (dirOf a b) == b) && adjOK (b :: rest2)) from rfl,
            Bool.and_eq_true] at h
          cases t with
          | zero =>
              simp only [List.getD_cons_zero, List.getD_cons_succ]
              exact eq_of_beq h.1
          | succ u =>
              simp only [List.getD_cons_succ]
              exact ih h.2 u (by simp at ht ⊢; omega)

theorem path_adj1 : ∀ t, t < 299 → stepCell (P1idx t) (dir1 (t + 1)) = P1idx (t + 1) := by
  intro t ht
  have h := adjOK_getD P1list P1_adjOK t (by rw [P1list_length]; omega)
  rw [show dir1 (t + 1) = dirOf (P1idx t) (P1idx (t + 1)) from by simp [dir1]]
  exact h

theorem path_adj2 : ∀ t, t < 299 → stepCell (P2idx t) (dir2 (t + 1)) = P2idx (t + 1) := by
  intro t ht
  have h := adjOK_getD P2list P2_adjOK t (by rw [P2list_length]; omega)
  rw [show dir2 (t + 1) = dirOf (P2idx t) (P2idx (t + 1)) from by simp [dir2]]
  exact h

theorem getD_mem (l : List Cell) (t : Nat) (ht : t < l.length) : l.getD t (0, 0) ∈ l := by
  rw [List.getD_eq_getElem _ _ ht]
  exact List.getElem_mem ht

theorem getD_not_mem_take (l : List Cell) (hn : l.Nodup) (t : Nat) (ht : t < l.length) :
    l.getD t (0, 0) ∉ l.take t := by
  intro hmem
  rw [List.mem_iff_getElem] at hmem
  obtain ⟨i, hi, hgi⟩ := hmem
  have hit : i < t := by
    rw [List.length_take] at hi
    omega
  have hil : i < l.length := by omega
  have htake : (l.take t)[i]? = l[i]? := List.getElem?_take_of_lt hit
  rw [List.getElem?_eq_getElem hi, List.getElem?_eq_getElem hil] at htake
  have h2 : l[i] = l[t] := by
    rw [← Option.some_inj.mp htake, hgi, List.getD_eq_getElem _ _ ht]
  have hij := (List.Nodup.getElem_inj_iff hn).mp h2
  omega

theorem path_fresh1 : ∀ t, t < 300 → P1idx t ∉ P1list.take t := by
  intro t ht
  exact getD_not_mem_take P1list P1_nodup t (by rw [P1list_length]; omega)

theorem path_fresh2 : ∀ t, t < 300 → P2idx t ∉ P2list.take t := by
  intro t ht
  exact getD_not_mem_take P2list P2_nodup t (by rw [P2list_length]; omega)

theorem P1_mem_bounds : ∀ c ∈ P1list, 0 ≤ c.1 ∧ c.1 < 15 ∧ 0 ≤ c.2 ∧ c.2 < 20 := by
  intro c hc
  exact of_decide_eq_true (List.all_eq_true.mp P1_left c hc)

theorem P2_mem_bounds : ∀ c ∈ P2list, 15 ≤ c.1 ∧ c.1 < 30 ∧ 0 ≤ c.2 ∧ c.2 < 20 := by
  intro c hc
  exact of_decide_eq_true (List.all_eq_true.mp P2_right c hc)

theorem path_grid1 : ∀ t, t < 300 →
    ¬ (P1idx t).1 < 0 ∧ ¬ GRID_WIDTH ≤ (P1idx t).1 ∧
    ¬ (P1idx t).2 < 0 ∧ ¬ GRID_HEIGHT ≤ (P1idx t).2 := by
  intro t ht
  have h := P1_mem_bounds _ (getD_mem P1list t (by rw [P1list_length]; omega))
  unfold GRID_WIDTH GRID_HEIGHT P1idx
  omega

theorem path_grid2 : ∀ t, t < 300 →
    ¬ (P2idx t).1 < 0 ∧ ¬ GRID_WIDTH ≤ (P2idx t).1 ∧
    ¬ (P2idx t).2 < 0 ∧ ¬ GRID_HEIGHT ≤ (P2idx t).2 := by
  intro t ht
  have h := P2_mem_bounds _ (getD_mem P2list t (by rw [P2list_length]; omega))
  unfold GRID_WIDTH GRID_HEIGHT P2idx
  omega

theorem path_disj12 : ∀ t, t < 300 → P1idx t ∉ P2list := by
  intro t ht hmem
  have h1 := P1_mem_bounds _ (getD_mem P1list t (by rw [P1list_length]; omega))
  have h2 := P2_mem_bounds _ hmem
  unfold P1idx at h2
  omega

theorem path_disj21 : ∀ t, t < 300 → P2idx t ∉ P1list := by
  intro t ht hmem
  have h1 := P2_mem_bounds _ (getD_mem P2list t (by rw [P2list_length]; omega))
  have h2 := P1_mem_bounds _ hmem
  unfold P2idx at h2
  omega

theorem mem_gridCells_iff (c : Cell) :
    c ∈ gridCells ↔ 0 ≤ c.1 ∧ c.1 < 30 ∧ 0 ≤ c.2 ∧ c.2 < 20 := by
  unfold gridCells
  simp only [List.mem_flatMap, List.mem_map, List.mem_range]
  constructor
  · rintro ⟨x, hx, y, hy, rfl⟩
    refine ⟨?_, ?_, ?_, ?_⟩ <;> simp [Int.ofNat_eq_natCast] <;> omega
  · rintro ⟨h1, h2, h3, h4⟩
    refine ⟨c.1.toNat, by omega, c.2.toNat, by omega, ?_⟩
    rw [Prod.ext_iff]
    constructor <;> simp [Int.ofNat_eq_natCast] <;> omega

theorem path_memgrid1 : ∀ t, t < 300 → P1idx t ∈ gridCells := by
  intro t ht
  have h := P1_mem_bounds _ (getD_mem P1list t (by rw [P1list_length]; omega))
  rw [mem_gridCells_iff]
  unfold P1idx
  omega

theorem path_memgrid2 : ∀ t, t < 300 → P2idx t ∈ gridCells := by
  intro t ht
  have h := P2_mem_bounds _ (getD_mem P2list t (by rw [P2list_length]; omega))
  rw [mem_gridCells_iff]
  unfold P2idx
  omega

theorem halves_disjoint : P1list.Disjoint P2list := by
  intro c h1 h2
  have a := P1_mem_bounds c h1
  have b := P2_mem_bounds c h2
  omega

theorem path_cover : ∀ c ∈ gridCells, c ∈ P1list ∨ c ∈ P2list := by
  intro c hc
  have hnodup : (P1list ++ P2list).Nodup := P1_nodup.append P2_nodup halves_disjoint
  have hsub : (P1list ++ P2list).toFinset ⊆ gridCells.toFinset := by
    intro x hx
    rw [List.mem_toFinset] at hx ⊢
    rw [List.mem_append] at hx
    rw [mem_gridCells_iff]
    rcases hx with h | h
    · have := P1_mem_bounds x h; omega
    · have := P2_mem_bounds x h; omega
  have hcard1 : (P1list ++ P2list).toFinset.card = 600 := by
    rw [List.toFinset_card_of_nodup hnodup, List.length_append, P1list_length, P2list_length]
  have hcard2 : gridCells.toFinset.card = 600 := by
    rw [List.toFinset_card_of_nodup gridCells_nodup, gridCells_length]
  have heq : (P1list ++ P2list).toFinset = gridCells.toFinset :=
    Finset.eq_of_subset_of_card_le hsub (by omega)
  have hc2 : c ∈ (P1list ++ P2list).toFinset := by
    rw [heq, List.mem_toFinset]
    exact hc
  rw [List.mem_toFinset, List.mem_append] at hc2
  exact hc2

theorem opposite_opposite (d : Dir) : opposite (opposite d) = d := by
  cases d <;> rfl

theorem stepCell_opposite (a : Cell) (d : Dir) : stepCell (stepCell a d) (opposite d) = a := by
  cases d <;> simp [stepCell, delta, opposite, Prod.ext_iff]

theorem path_noopp1 : ∀ t, t < 299 → opposite (dir1 (t + 1)) ≠ dir1 t := by
  intro t ht
  cases t with
  | zero => exact dir_init1
  | succ u =>
      intro heq
      have h1 : stepCell (P1idx (u + 1)) (dir1 (u + 2)) = P1idx (u + 2) :=
        path_adj1 (u + 1) (by omega)
      have h2 : stepCell (P1idx u) (dir1 (u + 1)) = P1idx (u + 1) := path_adj1 u (by omega)
      have heq' : dir1 (u + 2) = opposite (dir1 (u + 1)) := by
        have h3 := congrArg opposite heq
        rwa [opposite_opposite] at h3
      rw [heq', ← h2, stepCell_opposite] at h1
      have hlu : u < P1list.length := by rw [P1list_length]; omega
      have hl2 : u + 2 < P1list.length := by rw [P1list_length]; omega
      unfold P1idx at h1
      rw [List.getD_eq_getElem _ _ hlu, List.getD_eq_getElem _ _ hl2] at h1
      have huu := (List.Nodup.getElem_inj_iff P1_nodup).mp h1
      omega

theorem path_noopp2 : ∀ t, t < 299 → opposite (dir2 (t + 1)) ≠ dir2 t := by
  intro t ht
  cases t with
  | zero => exact dir_init2
  | succ u =>
      intro heq
      have h1 : stepCell (P2idx (u + 1)) (dir2 (u + 2)) = P2idx (u + 2) :=
        path_adj2 (u + 1) (by omega)
      have h2 : stepCell (P2idx u) (dir2 (u + 1)) = P2idx (u + 1) := path_adj2 u (by omega)
      have heq' : dir2 (u + 2) = opposite (dir2 (u + 1)) := by
        have h3 := congrArg opposite heq
        rwa [opposite_opposite] at h3
      rw [heq', ← h2, stepCell_opposite] at h1
      have hlu : u < P2list.length := by rw [P2list_length]; omega
      have hl2 : u + 2 < P2list.length := by rw [P2list_length]; omega
      unfold P2idx at h1
      rw [List.getD_eq_getElem _ _ hlu, List.getD_eq_getElem _ _ hl2] at h1
      have huu := (List.Nodup.getElem_inj_iff P2_nodup).mp h1
      omega

/-! ## Spawn characterisations for specific choice functions -/

theorem spawn_food_pickTarget (g : Game) (c : Cell) (hmem : c ∈ gridCells)
    (hocc : c ∉ occupiedCells g) :
    g.spawn_food (pickTarget c) = { g with food := some c } := by
  have hc : c ∈ gridCells.filter (fun x => !decide (x ∈ occupiedCells g)) := by
    rw [List.mem_filter]
    exact ⟨hmem, by simp [hocc]⟩
  have hne : gridCells.filter (fun x => !decide (x ∈ occupiedCells g)) ≠ [] :=
    List.ne_nil_of_mem hc
  unfold Game.spawn_food
  dsimp only
  rw [if_pos hne]
  unfold pickTarget
  rw [if_pos hc]

theorem spawn_food_noFree (g : Game) (p : List Cell → Cell)
    (hall : ∀ c ∈ gridCells, c ∈ occupiedCells g) : g.spawn_food p = g := by
  have h0 : gridCells.filter (fun x => !decide (x ∈ occupiedCells g)) = [] := by
    rw [List.filter_eq_nil_iff]
    intro a ha
    simp [hall a ha]
  unfold Game.spawn_food
  dsimp only
  rw [h0]
  simp

/-! ## Queueing one direction into a between-ticks snake, then moving -/

theorem fresh_queue_move_grow (pid : Nat) (b : List Cell) (a d : Dir) (hne : opposite d ≠ a) :
    ((⟨pid, b, a, a, [], true⟩ : Snake).queue_direction d).get_next_head =
        stepCell (b.headD (0, 0)) d ∧
      ((⟨pid, b, a, a, [], true⟩ : Snake).queue_direction d).move true =
        ⟨pid, stepCell (b.headD (0, 0)) d :: b, d, d, [], true⟩ := by
  by_cases hd : d = a
  · subst hd
    have hq : (⟨pid, b, d, d, [], true⟩ : Snake).queue_direction d =
        ⟨pid, b, d, d, [], true⟩ := by
      unfold Snake.queue_direction
      rw [if_neg (fun h => h.2 rfl)]
    rw [hq]
    exact ⟨rfl, rfl⟩
  · have hq : (⟨pid, b, a, a, [], true⟩ : Snake).queue_direction d =
        ⟨pid, b, a, a, [d], true⟩ := by
      unfold Snake.queue_direction
      rw [if_pos ⟨by simpa [Snake.lastQueued] using hne, by simpa [Snake.lastQueued] using hd⟩]
      rfl
    rw [hq]
    constructor
    · unfold Snake.get_next_head
      dsimp only
      rw [if_pos hne]
      rfl
    · unfold Snake.move Snake.process_input
      dsimp only
      rw [if_pos hne]
      rfl

/-! ## Collision and end-check no-ops for safe states -/

theorem collideCheck_id (s other : Snake) (ha : s.alive = true)
    (h1 : ¬ s.head.1 < 0) (h2 : ¬ GRID_WIDTH ≤ s.head.1)
    (h3 : ¬ s.head.2 < 0) (h4 : ¬ GRID_HEIGHT ≤ s.head.2)
    (h5 : s.head ∉ s.body.tail) (h6 : s.head ∉ other.body) :
    collideCheck s other = s := by
  unfold collideCheck
  rw [if_pos ha]
  dsimp only
  rw [decide_eq_false h1, decide_eq_false h2, decide_eq_false h3, decide_eq_false h4,
    decide_eq_false h5, decide_eq_false h6]
  simp only [Bool.or_self, Bool.or_false, Bool.not_false]
  rw [← ha]

theorem collisions_id (g : Game)
    (h1 : collideCheck g.snake1 g.snake2 = g.snake1)
    (h2 : collideCheck g.snake2 g.snake1 = g.snake2) :
    g.collisions = g := by
  unfold Game.collisions
  dsimp only
  rw [h1, h2]

theorem endCheck_of_both_alive (g : Game) (h1 : g.snake1.alive = true)
    (h2 : g.snake2.alive = true) : g.endCheck = g := by
  unfold Game.endCheck
  dsimp only
  rw [h1, h2]
  simp

theorem take_succ_reverse (l : List Cell) (n : Nat) (hn : n < l.length) :
    (l.take (n + 1)).reverse = l.getD n (0, 0) :: (l.take n).reverse := by
  rw [List.take_succ, List.getElem?_eq_getElem hn, List.getD_eq_getElem _ _ hn]
  simp

theorem queueDir_one (g : Game) (d : Dir) :
    g.queueDir 1 d = { g with snake1 := g.snake1.queue_direction d } := by
  unfold Game.queueDir
  rw [if_pos rfl]

theorem queueDir_two (g : Game) (d : Dir) :
    g.queueDir 2 d = { g with snake2 := g.snake2.queue_direction d } := by
  unfold Game.queueDir
  rw [if_neg (by omega), if_pos rfl]

/-! ## The trace: initial state and the generic tick step -/

set_option maxRecDepth 100000 in
set_option maxHeartbeats 1000000 in
theorem GC0_eq : GC 0 = { Game.init (pickTarget (P1idx 1)) with running := true } := by decide

set_option maxRecDepth 100000 in
theorem GC_tick (u : Nat) (hu : u ≤ 298) :
    (((GC u).queueDir 1 (dir1 (u + 1))).queueDir 2 (dir2 (u + 1))).update
      (pickTarget (P2idx (u + 1))) (pickTarget (P1idx (u + 2))) = GC (u + 1) := by
  have hu299 : u < 299 := by omega
  have hL0 : u < P1list.length := by rw [P1list_length]; omega
  have hL1 : u + 1 < P1list.length := by rw [P1list_length]; omega
  have hM0 : u < P2list.length := by rw [P2list_length]; omega
  have hM1 : u + 1 < P2list.length := by rw [P2list_length]; omega
  have hb1 := take_succ_reverse P1list u hL0
  have hb1' : (P1list.take (u + 2)).reverse = P1idx (u + 1) :: (P1list.take (u + 1)).reverse :=
    take_succ_reverse P1list (u + 1) hL1
  have hb2 := take_succ_reverse P2list u hM0
  have hb2' : (P2list.take (u + 2)).reverse = P2idx (u + 1) :: (P2list.take (u + 1)).reverse :=
    take_succ_reverse P2list (u + 1) hM1
  have hhead1 : ((P1list.take (u + 1)).reverse).headD ((0 : Int), (0 : Int)) = P1idx u := by
    rw [hb1]
    rfl
  have hhead2 : ((P2list.take (u + 1)).reverse).headD ((0 : Int), (0 : Int)) = P2idx u := by
    rw [hb2]
    rfl
  have hq1 := fresh_queue_move_grow 1 ((P1list.take (u + 1)).reverse) (dir1 u) (dir1 (u + 1))
    (path_noopp1 u hu299)
  have hq2 := fresh_queue_move_grow 2 ((P2list.take (u + 1)).reverse) (dir2 u) (dir2 (u + 1))
    (path_noopp2 u hu299)
  have hn1 := hq1.1
  have hm1 := hq1.2
  rw [hhead1, path_adj1 u hu299] at hn1 hm1
  rw [← hb1'] at hm1
  have hn2 := hq2.1
  have hm2 := hq2.2
  rw [hhead2, path_adj2 u hu299] at hn2 hm2
  rw [← hb2'] at hm2
  have hfood0 : (GC u).food = some (P1idx (u + 1)) := by
    show some (if u < 299 then P1idx (u + 1) else P2idx 299) = _
    rw [if_pos hu299]
  have hs1 : (GC u).snake1 = ⟨1, (P1list.take (u + 1)).reverse, dir1 u, dir1 u, [], true⟩ := rfl
  have hs2 : (GC u).snake2 = ⟨2, (P2list.take (u + 1)).reverse, dir2 u, dir2 u, [], true⟩ := rfl
  rw [queueDir_one, queueDir_two]
  rw [show ({ GC u with snake1 := (GC u).snake1.queue_direction (dir1 (u + 1)) } : Game).snake2
    = (GC u).snake2 from rfl]
  rw [hs1, hs2, hfood0]
  rw [show ({ GC u with
      snake1 := (⟨1, (P1list.take (u + 1)).reverse, dir1 u, dir1 u, [], true⟩ :
        Snake).queue_direction (dir1 (u + 1)) } : Game).running = true from rfl,
    show ({ GC u with
      snake1 := (⟨1, (P1list.take (u + 1)).reverse, dir1 u, dir1 u, [], true⟩ :
        Snake).queue_direction (dir1 (u + 1)) } : Game).winner = none from rfl,
    show ({ GC u with
      snake1 := (⟨1, (P1list.take (u + 1)).reverse, dir1 u, dir1 u, [], true⟩ :
        Snake).queue_direction (dir1 (u + 1)) } : Game).mode = "two_player" from rfl]
  unfold Game.update
  rw [if_pos rfl]
  rw [phase1_grow _ _ (by rw [queue_direction_alive]) (by dsimp only; rw [hn1])]
  dsimp only
  rw [hm1]
  have hocc2 : P2idx (u + 1) ∉ occupiedCells
      { snake1 := ⟨1, (P1list.take (u + 2)).reverse, dir1 (u + 1), dir1 (u + 1), [], true⟩
        snake2 := (⟨2, (P2list.take (u + 1)).reverse, dir2 u, dir2 u, [], true⟩ :
          Snake).queue_direction (dir2 (u + 1))
        food := some (P1idx (u + 1))
        running := true
        winner := none
        mode := "two_player" } := by
    unfold occupiedCells
    dsimp only
    rw [queue_direction_body]
    intro hmem
    rw [List.mem_append] at hmem
    rcases hmem with hmem | hmem
    · rw [List.mem_reverse] at hmem
      exact path_disj21 (u + 1) (by omega) (List.take_subset _ _ hmem)
    · rw [List.mem_reverse] at hmem
      exact path_fresh2 (u + 1) (by omega) hmem
  rw [spawn_food_pickTarget _ _ (path_memgrid2 (u + 1) (by omega)) hocc2]
  rw [phase2_grow _ _ (by rw [queue_direction_alive]) (by dsimp only; rw [hn2])]
  dsimp only
  rw [hm2]
  have hhd1 : (⟨1, (P1list.take (u + 2)).reverse, dir1 (u + 1), dir1 (u + 1), [], true⟩ :
      Snake).head = P1idx (u + 1) := by
    rw [Snake.head, hb1']
    rfl
  have hhd2 : (⟨2, (P2list.take (u + 2)).reverse, dir2 (u + 1), dir2 (u + 1), [], true⟩ :
      Snake).head = P2idx (u + 1) := by
    rw [Snake.head, hb2']
    rfl
  have hg1 := path_grid1 (u + 1) (by omega)
  have hg2 := path_grid2 (u + 1) (by omega)
  have hcc1 : ∀ other : Snake, other.body = (P2list.take (u + 2)).reverse →
      collideCheck ⟨1, (P1list.take (u + 2)).reverse, dir1 (u + 1), dir1 (u + 1), [], true⟩ other
        = ⟨1, (P1list.take (u + 2)).reverse, dir1 (u + 1), dir1 (u + 1), [], true⟩ := by
    intro other hob
    apply collideCheck_id
    · rfl
    · rw [hhd1]; exact hg1.1
    · rw [hhd1]; exact hg1.2.1
    · rw [hhd1]; exact hg1.2.2.1
    · rw [hhd1]; exact hg1.2.2.2
    · rw [hhd1, show (⟨1, (P1list.take (u + 2)).reverse, dir1 (u + 1), dir1 (u + 1), [], true⟩ :
        Snake).body = (P1list.take (u + 2)).reverse from rfl, hb1']
      intro hmem
      rw [show (P1idx (u + 1) :: (P1list.take (u + 1)).reverse).tail
        = (P1list.take (u + 1)).reverse from rfl, List.mem_reverse] at hmem
      exact path_fresh1 (u + 1) (by omega) hmem
    · rw [hhd1, hob]
      intro hmem
      rw [List.mem_reverse] at hmem
      exact path_disj12 (u + 1) (by omega) (List.take_subset _ _ hmem)
  have hcc2 : ∀ other : Snake, other.body = (P1list.take (u + 2)).reverse →
      collideCheck ⟨2, (P2list.take (u + 2)).reverse, dir2 (u + 1), dir2 (u + 1), [], true⟩ other
        = ⟨2, (P2list.take (u + 2)).reverse, dir2 (u + 1), dir2 (u + 1), [], true⟩ := by
    intro other hob
    apply collideCheck_id
    · rfl
    · rw [hhd2]; exact hg2.1
    · rw [hhd2]; exact hg2.2.1
    · rw [hhd2]; exact hg2.2.2.1
    · rw [hhd2]; exact hg2.2.2.2
    · rw [hhd2, show (⟨2, (P2list.take (u + 2)).reverse, dir2 (u + 1), dir2 (u + 1), [], true⟩ :
        Snake).body = (P2list.take (u + 2)).reverse from rfl, hb2']
      intro hmem
      rw [show (P2idx (u + 1) :: (P2list.take (u + 1)).reverse).tail
        = (P2list.take (u + 1)).reverse from rfl, List.mem_reverse] at hmem
      exact path_fresh2 (u + 1) (by omega) hmem
    · rw [hhd2, hob]
      intro hmem
      rw [List.mem_reverse] at hmem
      exact path_disj21 (u + 1) (by omega) (List.take_subset _ _ hmem)
  by_cases hend : u < 298
  · have hocc1 : P1idx (u + 2) ∉ occupiedCells
        { snake1 := ⟨1, (P1list.take (u + 2)).reverse, dir1 (u + 1), dir1 (u + 1), [], true⟩
          snake2 := ⟨2, (P2list.take (u + 2)).reverse, dir2 (u + 1), dir2 (u + 1), [], true⟩
          food := some (P2idx (u + 1))
          running := true
          winner := none
          mode := "two_player" } := by
      unfold occupiedCells
      dsimp only
      intro hmem
      rw [List.mem_append] at hmem
      rcases hmem with hmem | hmem
      · rw [List.mem_reverse] at hmem
        exact path_fresh1 (u + 2) (by omega) hmem
      · rw [List.mem_reverse] at hmem
        exact path_disj12 (u + 2) (by omega) (List.take_subset _ _ hmem)
    rw [spawn_food_pickTarget _ _ (path_memgrid1 (u + 2) (by omega)) hocc1]
    rw [collisions_id _ (hcc1 _ rfl) (hcc2 _ rfl), endCheck_of_both_alive _ rfl rfl]
    show _ = GC (u + 1)
    unfold GC
    rw [if_pos (show u + 1 < 299 from by omega)]
  · have hu' : u = 298 := by omega
    subst hu'
    have hall : ∀ c ∈ gridCells, c ∈ occupiedCells
        { snake1 := ⟨1, (P1list.take 300).reverse, dir1 299, dir1 299, [], true⟩
          snake2 := ⟨2, (P2list.take 300).reverse, dir2 299, dir2 299, [], true⟩
          food := some (P2idx 299)
          running := true
          winner := none
          mode := "two_player" } := by
      intro c hc
      unfold occupiedCells
      dsimp only
      rw [show P1list.take 300 = P1list from by rw [← P1list_length, List.take_length],
        show P2list.take 300 = P2list from by rw [← P2list_length, List.take_length],
        List.mem_append, List.mem_reverse, List.mem_reverse]
      exact path_cover c hc
    rw [spawn_food_noFree _ _ hall]
    rw [collisions_id _ (hcc1 _ rfl) (hcc2 _ rfl), endCheck_of_both_alive _ rfl rfl]
    show _ = GC 299
    unfold GC
    rw [if_neg (by omega)]

/-! ## Reachability of the whole trace and the C4 counterexample -/

theorem reach_GC : ∀ t, t ≤ 299 → Reachable (GC t) := by
  intro t
  induction t with
  | zero =>
      intro _
      rw [GC0_eq]
      exact Reachable.started _ (validPick_pickTarget _)
  | succ u ih =>
      intro h
      have r1 := Reachable.queue _ 1 (dir1 (u + 1)) rfl (ih (by omega))
      have r2 := Reachable.queue _ 2 (dir2 (u + 1)) rfl r1
      have r3 := Reachable.tick _ (pickTarget (P2idx (u + 1))) (pickTarget (P1idx (u + 2)))
        (validPick_pickTarget _) (validPick_pickTarget _) r2
      rw [GC_tick u (by omega)] at r3
      exact r3

set_option maxRecDepth 100000 in
/-- C4 as stated is false: along the 299-tick trace in which both snakes eat
on every tick (all food choices obey the `random.choice` contract), the final
respawn finds no free cell — the two bodies cover all 600 grid cells — and
`spawn_food` leaves the Food at the just-eaten cell, which is snake 2's head.
The resulting state is reachable between ticks (the game is still running and
both snakes are alive), yet its Food lies inside snake 2's body. -/
theorem c4_counterexample : ¬ (∀ g : Game, Reachable g → foodInv g) := by
  intro h
  have hfood : (GC 299).food = some (P2idx 299) := by
    show some (if 299 < 299 then P1idx 300 else P2idx 299) = _
    rw [if_neg (by omega)]
  have h2 := (h (GC 299) (reach_GC 299 (by omega)) (P2idx 299) hfood).2
  apply h2
  show P2idx 299 ∈ (P2list.take 300).reverse
  rw [show P2list.take 300 = P2list from by rw [← P2list_length, List.take_length],
    List.mem_reverse]
  exact getD_mem P2list 299 (by rw [P2list_length]; omega)

/-! ## Matchmaking: the sequential schedule and claim C8 -/

theorem lookup_none_keys (k : Nat) (l : List (Nat × (Nat × Nat)))
    (h : ∀ p ∈ l, p.1 ≠ k) : l.lookup k = none := by
  induction l with
  | nil => rfl
  | cons a t ih =>
    obtain ⟨k1, v1⟩ := a
    rw [List.lookup_cons]
    have hk1 : k1 ≠ k := h (k1, v1) (List.mem_cons_self _ _)
    have hb : (k == k1) = false := by
      rw [beq_eq_false_iff_ne]
      exact fun he => hk1 he.symm
    rw [hb]
    exact ih fun p hp => h p (List.mem_cons_of_mem _ hp)

theorem seqAssigned20_keys : ∀ p ∈ seqAssigned 20, p.1 < 20 := by decide

set_option maxRecDepth 100000 in
theorem run_seq_20 : runSched (seqSched 20) = (seqStateK 20, seqAssigned 20) := by decide

theorem seqSched_succ (N : Nat) :
    seqSched (N + 1) = seqSched N ++ [JEv.find N, JEv.attach N] := by
  unfold seqSched
  rw [List.range_succ, List.flatMap_append]
  rfl

theorem runSched_append (l1 l2 : List JEv) :
    runSched (l1 ++ l2) = l2.foldl execEv (runSched l1) := by
  unfold runSched
  rw [List.foldl_append]

set_option maxRecDepth 100000 in
theorem execEv_find_20 (n : Nat) :
    execEv (seqStateK 20, seqAssigned 20) (JEv.find n) = (seqStateK 20, seqAssigned 20) := rfl

set_option maxRecDepth 100000 in
theorem execEv_attach_20 (n : Nat) (hn : 20 ≤ n) :
    execEv (seqStateK 20, seqAssigned 20) (JEv.attach n) = (seqStateK 20, seqAssigned 20) := by
  have hlk : (seqAssigned 20).lookup n = none := by
    apply lookup_none_keys
    intro p hp
    have := seqAssigned20_keys p hp
    omega
  unfold execEv
  dsimp only
  rw [hlk]

set_option maxRecDepth 100000 in
theorem seq_sat (N : Nat) :
    20 ≤ N → runSched (seqSched N) = (seqStateK 20, seqAssigned 20) := by
  induction N with
  | zero =>
      intro h
      omega
  | succ n ih =>
      intro _
      by_cases h : 20 ≤ n
      · rw [seqSched_succ, runSched_append, ih h]
        show execEv (execEv (seqStateK 20, seqAssigned 20) (JEv.find n)) (JEv.attach n) = _
        rw [execEv_find_20, execEv_attach_20 n h]
      · have h20 : n + 1 = 20 := by omega
        rw [h20]
        exact run_seq_20

set_option maxRecDepth 100000 in
theorem seq_small : ∀ N, N ≤ 20 → goodOutcome N (runSched (seqSched N)) := by decide

set_option maxRecDepth 100000 in
/-- C8 as stated is false: the matchmaking lock covers only the find-or-create
decision, not the subsequent attach, so a joiner that has been assigned the
sole free slot of a waiting room but has not yet attached leaves that room
still waiting, and another joiner's find-or-create decision hands out the very
same (room object, slot) pair. With three joiners and the well-formed schedule
find 0, attach 0, find 1, find 2, attach 1, attach 2 — each joiner finds
exactly once before attaching exactly once — joiners 1 and 2 are both
assigned slot 2 of the room object created for joiner 0. -/
theorem c8_counterexample :
    ¬ (∀ (N : Nat) (sched : List JEv), WFSched sched N →
        goodOutcome N (runSched sched)) := by
  intro h
  have h3 := h 3 [JEv.find 0, JEv.attach 0, JEv.find 1, JEv.find 2, JEv.attach 1, JEv.attach 2]
    (by decide)
  exact absurd h3 (by decide)

set_option maxRecDepth 100000 in
/-- C8 amended: under the fully sequential schedule — each joiner's attach
completes before the next joiner's find-or-create decision — no two callers
are ever assigned the same (room object, slot) pair, and starting from an
empty registry at most ⌈N/2⌉ rooms are instantiated in total (the room-id pool
additionally caps instantiation at 10 rooms). -/
theorem c8_amended : ∀ N : Nat, goodOutcome N (runSched (seqSched N)) := by
  intro N
  by_cases h : N ≤ 20
  · exact seq_small N h
  · rw [seq_sat N (by omega)]
    refine ⟨by decide, ?_⟩
    show (seqStateK 20).created ≤ (N + 1) / 2
    have h10 : (seqStateK 20).created = 10 := rfl
    rw [h10]
    omega

end Copperhead
